import Mathlib

/-!
Verification of the rust-mcp runtime (mcp-protocol, mcp-server, mcp-client)
against its natural-language specification.

The Rust sources are shallowly embedded:
* JSON values (`serde_json::Value`) become the inductive `Json`; numbers are
  modelled as integers (no claim depends on float payloads).
* `HashMap`/`HashSet` registries become association lists.  Mutating
  `insert` is modelled by `insertKey` (replace-in-place or append), and the
  list order of a registry snapshot models the hash map's unspecified
  iteration order: the Rust code never sorts before exposing it, so theorems
  never rely on a particular order and counterexamples may pick any order.
* Rust `Result<T, anyhow::Error>` becomes `Except String T`.
* Each request handler of `mcp-server` becomes a pure function from the
  server state and the decoded request to the reply message (plus the new
  server state where the handler mutates it).  Handlers send exactly one
  reply per request, so returning the reply is a faithful rendering of the
  single `transport.send` on each path.
-/

namespace Mcp

/-- JSON values, mirroring serde_json::Value.  Objects keep their fields as an
ordered association list; numbers are modelled as integers. -/
inductive Json where
  | null : Json
  | bool : Bool → Json
  | num : Int → Json
  | str : String → Json
  | arr : List Json → Json
  | obj : List (String × Json) → Json

/-- JSON-RPC 2.0 error object, from mcp-protocol/src/messages/base.rs
(struct JsonRpcError: code i32, message, optional data). -/
structure JsonRpcError where
  code : Int
  message : String
  data : Option Json

/-- JSON-RPC 2.0 message, from mcp-protocol/src/messages/base.rs
(untagged enum JsonRpcMessage with Request / Response / Notification). -/
inductive JsonRpcMessage where
  | request : String → Json → String → Option Json → JsonRpcMessage
  | response : String → Json → Option Json → Option JsonRpcError → JsonRpcMessage
  | notification : String → String → Option Json → JsonRpcMessage

/-- Constructor JsonRpcMessage::request. -/
def JsonRpcMessage.mkRequest (id : Json) (method : String) (params : Option Json) :
    JsonRpcMessage :=
  .request "2.0" id method params

/-- Constructor JsonRpcMessage::response (result set, error None). -/
def JsonRpcMessage.mkResponse (id : Json) (result : Json) : JsonRpcMessage :=
  .response "2.0" id (some result) none

/-- Constructor JsonRpcMessage::error (result None, error set). -/
def JsonRpcMessage.mkError (id : Json) (code : Int) (message : String)
    (data : Option Json) : JsonRpcMessage :=
  .response "2.0" id none (some ⟨code, message, data⟩)

/-- Constructor JsonRpcMessage::notification. -/
def JsonRpcMessage.mkNotification (method : String) (params : Option Json) :
    JsonRpcMessage :=
  .notification "2.0" method params

/-- An optional struct field under serde's skip_serializing_if Option::is_none:
absent when None, present otherwise. -/
def optField (k : String) : Option Json → List (String × Json)
  | none => []
  | some v => [(k, v)]

/-- Serialization of JsonRpcError (field order code, message, data; data
skipped when None). -/
def encodeError (e : JsonRpcError) : Json :=
  .obj ([("code", .num e.code), ("message", .str e.message)] ++ optField "data" e.data)

/-- Serialization of JsonRpcMessage: serde's untagged struct-variant encoding,
fields in declaration order, None optionals omitted. -/
def encode : JsonRpcMessage → Json
  | .request jsonrpc id method params =>
      .obj ([("jsonrpc", .str jsonrpc), ("id", id), ("method", .str method)] ++
        optField "params" params)
  | .response jsonrpc id result error =>
      .obj ([("jsonrpc", .str jsonrpc), ("id", id)] ++ optField "result" result ++
        (match error with
          | none => []
          | some e => [("error", encodeError e)]))
  | .notification jsonrpc method params =>
      .obj ([("jsonrpc", .str jsonrpc), ("method", .str method)] ++
        optField "params" params)

/-- Field lookup in a JSON object (serde reads the first occurrence of a key;
the encoder never emits duplicates). -/
def getField (o : List (String × Json)) (k : String) : Option Json :=
  o.lookup k

/-- Deserializing a String field: only a JSON string is accepted. -/
def asString : Json → Option String
  | .str s => some s
  | _ => none

/-- Deserializing an Option field of JSON payload type: an absent key or an
explicit null both become None (serde's Option semantics). -/
def decodeOptJson : Option Json → Option Json
  | none => none
  | some .null => none
  | some v => some v

/-- Deserializing Option of JsonRpcError; a present non-null field must parse
as a JsonRpcError object (code integer, message string, optional data). -/
def decodeOptError : Option Json → Option (Option JsonRpcError)
  | none => some none
  | some .null => some none
  | some (.obj o) =>
      match getField o "code", getField o "message" with
      | some (.num c), some (.str m) => some (some ⟨c, m, decodeOptJson (getField o "data")⟩)
      | _, _ => none
  | some _ => none

/-- Untagged variant 1: Request (requires jsonrpc, id, method). -/
def decodeRequest (o : List (String × Json)) : Option JsonRpcMessage :=
  match getField o "jsonrpc", getField o "id", getField o "method" with
  | some (.str j), some id, some (.str m) =>
      some (.request j id m (decodeOptJson (getField o "params")))
  | _, _, _ => none

/-- Untagged variant 2: Response (requires jsonrpc, id; result and error
optional). -/
def decodeResponse (o : List (String × Json)) : Option JsonRpcMessage :=
  match getField o "jsonrpc", getField o "id" with
  | some (.str j), some id =>
      match decodeOptError (getField o "error") with
      | some e => some (.response j id (decodeOptJson (getField o "result")) e)
      | none => none
  | _, _ => none

/-- Untagged variant 3: Notification (requires jsonrpc, method). -/
def decodeNotification (o : List (String × Json)) : Option JsonRpcMessage :=
  match getField o "jsonrpc", getField o "method" with
  | some (.str j), some (.str m) =>
      some (.notification j m (decodeOptJson (getField o "params")))
  | _, _ => none

/-- Deserialization of the untagged enum: serde tries the variants in
declaration order (Request, Response, Notification) on the buffered value. -/
def decode (v : Json) : Option JsonRpcMessage :=
  match v with
  | .obj o => (decodeRequest o).orElse fun _ => (decodeResponse o).orElse fun _ => decodeNotification o
  | _ => none

/-- A message is wire-valid when a Response carries exactly one of result and
error, and no present optional payload is the literal null (serde omits None
and collapses an explicit null back to None, which is the "modulo omitted
optional null fields" proviso of the round-trip law). -/
def validMessage : JsonRpcMessage → Prop
  | .request _ _ _ params => params ≠ some .null
  | .response _ _ result error =>
      (result.isSome ↔ error = none) ∧ result ≠ some .null ∧
        (∀ e, error = some e → e.data ≠ some .null)
  | .notification _ _ params => params ≠ some .null

end Mcp

namespace Mcp

/-- Rust `str` comparison (`String::cmp`, byte-lexicographic on UTF-8, which
coincides with code-point lexicographic order), as a boolean "less or equal"
on the character lists. -/
def charListLe : List Char → List Char → Bool
  | [], _ => true
  | _ :: _, [] => false
  | a :: as, b :: bs =>
    if a.toNat < b.toNat then true
    else if b.toNat < a.toNat then false
    else charListLe as bs

/-- Boolean string order used to model Rust's `sort_by(name.cmp)`. -/
def strLe (a b : String) : Bool := charListLe a.data b.data

/-- Boolean prefix test on character lists. -/
def charsPrefixOf : List Char → List Char → Bool
  | [], _ => true
  | _ :: _, [] => false
  | a :: as, b :: bs => a == b && charsPrefixOf as bs

/-- Boolean infix test on character lists. -/
def charsInfixOf (pat : List Char) : List Char → Bool
  | [] => charsPrefixOf pat []
  | b :: bs => charsPrefixOf pat (b :: bs) || charsInfixOf pat bs

/-- Rust `str::contains(substring)`. -/
def containsSubstr (s pat : String) : Bool := charsInfixOf pat.data s.data

/-- Rust `str::starts_with`. -/
def strStartsWith (s pre : String) : Bool := charsPrefixOf pre.data s.data

/-- Rust `str::trim().is_empty()`: every character is whitespace. -/
def trimIsEmpty (s : String) : Bool := s.data.all (fun c => c.isWhitespace)

mutual
/-- `serde_json::Value`'s Display (`id.to_string()` in the handlers): compact
JSON rendering.  String escaping is elided (no claim exercises characters that
require escapes); what matters is that distinct scalar ids render distinctly. -/
def Json.render : Json → String
  | .null => "null"
  | .bool true => "true"
  | .bool false => "false"
  | .num n => toString n
  | .str s => "\"" ++ s ++ "\""
  | .arr xs => "[" ++ Json.renderList xs ++ "]"
  | .obj fs => "\x7b" ++ Json.renderObj fs ++ "\x7d"

def Json.renderList : List Json → String
  | [] => ""
  | [x] => Json.render x
  | x :: y :: xs => Json.render x ++ "," ++ Json.renderList (y :: xs)

def Json.renderObj : List (String × Json) → String
  | [] => ""
  | [(k, v)] => "\"" ++ k ++ "\":" ++ Json.render v
  | (k, v) :: f :: fs =>
      "\"" ++ k ++ "\":" ++ Json.render v ++ "," ++ Json.renderObj (f :: fs)
end

/-- `HashMap::insert`: replace the value of an existing key in place, else
append the new binding.  (The position chosen for a fresh binding is
irrelevant: no theorem reads order out of a map this way.) -/
def insertKey (k : String) (v : α) : List (String × α) → List (String × α)
  | [] => [(k, v)]
  | (k', v') :: rest => if k' == k then (k, v) :: rest else (k', v') :: insertKey k v rest

/-- Generic association-list insert for non-string keys (prompt completion
providers are keyed by a pair). -/
def insertKeyBEq [BEq κ] (k : κ) (v : α) : List (κ × α) → List (κ × α)
  | [] => [(k, v)]
  | (k', v') :: rest => if k' == k then (k, v) :: rest else (k', v') :: insertKeyBEq k v rest

/-- `HashSet::insert`. -/
def insertSet (x : String) (s : List String) : List String :=
  if s.contains x then s else x :: s

/-- Server lifecycle state, from mcp-protocol/src/types/server.rs. -/
inductive ServerState where
  | Created
  | Initializing
  | Ready
  | ShuttingDown
deriving DecidableEq

/-- mcp-protocol/src/types/server.rs: ServerInfo. -/
structure ServerInfo where
  name : String
  version : String

/-- mcp-protocol/src/types/tool.rs: Tool.  Annotation maps are modelled as
association lists (hash order arbitrary). -/
structure Tool where
  name : String
  description : Option String
  input_schema : Json
  annotations : Option (List (String × Json))

/-- mcp-protocol/src/types/tool.rs: ToolContent (tag "type"). -/
inductive ToolContent where
  | text : String → ToolContent
  | image : String → String → ToolContent
  | audio : String → String → ToolContent
  | resource : Json → ToolContent

/-- mcp-protocol/src/types/tool.rs: ToolCallResult. -/
structure ToolCallResult where
  content : List ToolContent
  is_error : Option Bool

/-- mcp-protocol/src/types/resource/mod.rs: Resource. -/
structure Resource where
  uri : String
  name : String
  description : Option String
  mime_type : Option String
  size : Option Nat
  annotations : Option (List (String × Json))

/-- mcp-protocol/src/types/resource/mod.rs: ResourceContent. -/
structure ResourceContent where
  uri : String
  mime_type : String
  text : Option String
  blob : Option String

/-- mcp-protocol/src/types/resource/mod.rs: ResourceTemplate. -/
structure ResourceTemplate where
  uri_template : String
  name : String
  description : Option String
  mime_type : Option String
  annotations : Option (List (String × Json))

/-- mcp-protocol/src/types/resource/mod.rs: CompletionItem (label,
description, insert_text), the element type returned by template completion
providers. -/
structure CompletionItem where
  label : String
  description : Option String
  insert_text : Option String

/-- mcp-protocol/src/types/prompt.rs: PromptArgument. -/
structure PromptArgument where
  name : String
  description : Option String
  required : Option Bool

/-- mcp-protocol/src/types/prompt.rs: Prompt. -/
structure Prompt where
  name : String
  description : Option String
  arguments : Option (List PromptArgument)
  annotations : Option (List (String × Json))

/-- mcp-protocol/src/types/prompt.rs: EmbeddedResource. -/
structure EmbeddedResource where
  uri : String
  mime_type : String
  text : Option String
  data : Option String

/-- mcp-protocol/src/types/prompt.rs: PromptMessageContent (tag "type"). -/
inductive PromptMessageContent where
  | text : String → PromptMessageContent
  | image : String → String → PromptMessageContent
  | resource : EmbeddedResource → PromptMessageContent

/-- mcp-protocol/src/types/prompt.rs: PromptMessage. -/
structure PromptMessage where
  role : String
  content : PromptMessageContent

/-- mcp-protocol/src/types/prompt.rs: PromptGetResult. -/
structure PromptGetResult where
  description : Option String
  messages : List PromptMessage

/-- mcp-protocol/src/types/completion/mod.rs: CompletionReference
(tag "type", variants ref/prompt and ref/resource). -/
inductive CompletionReference where
  | prompt : String → CompletionReference
  | resource : String → CompletionReference

/-- mcp-protocol/src/types/completion/mod.rs: CompletionArgument (value is a
required String field). -/
structure CompletionArgument where
  name : String
  value : String

/-- mcp-protocol/src/types/completion/mod.rs: CompleteRequest. -/
structure CompleteRequest where
  ref : CompletionReference
  argument : CompletionArgument

/-- mcp-protocol/src/types/completion/mod.rs: CompletionResult (note: the
has_more field carries no serde rename, so its wire key is "has_more"). -/
structure CompletionResult where
  values : List String
  total : Option Nat
  has_more : Bool

/-- mcp-protocol/src/types/sampling/mod.rs: MessageContent (tag "type";
the image variant's mime_type field carries no serde rename). -/
inductive MessageContent where
  | text : String → MessageContent
  | image : String → String → MessageContent

/-- mcp-protocol/src/types/sampling/mod.rs: Message. -/
structure Message where
  role : String
  content : MessageContent

/-- mcp-protocol/src/types/sampling/mod.rs: CreateMessageParams.  The float
valued tuning fields and the preference/context maps are kept as raw JSON;
no claim depends on their numeric values. -/
structure CreateMessageParams where
  messages : List Message
  model_preferences : Option Json
  system_prompt : Option String
  max_tokens : Option Nat
  temperature : Option Json
  top_p : Option Json
  context : Option (List (String × String))

/-- mcp-protocol/src/types/sampling/mod.rs: CreateMessageResult. -/
structure CreateMessageResult where
  role : String
  content : MessageContent
  model : Option String
  stop_reason : Option String
  metadata : Option (List (String × Json))

/-- mcp-protocol/src/messages/lifecycle.rs: ClientCapabilities. -/
structure ClientCapabilities where
  roots : Option (List (String × Bool))
  sampling : Option (List (String × Json))
  experimental : Option (List (String × Json))

/-- mcp-protocol/src/types/client.rs: ClientInfo. -/
structure ClientInfo where
  name : String
  version : String

/-- mcp-protocol/src/messages/lifecycle.rs: InitializeParams. -/
structure InitializeParams where
  protocol_version : String
  capabilities : ClientCapabilities
  client_info : ClientInfo

/-- mcp-protocol/src/constants.rs: PROTOCOL_VERSION. -/
def PROTOCOL_VERSION : String := "2025-06-18"

/-- mcp-protocol/src/version.rs: is_supported_version. -/
def is_supported_version (version : String) : Bool := version == PROTOCOL_VERSION

end Mcp

namespace Mcp

/-- resources/mod.rs, tools/mod.rs: DEFAULT_PAGE_SIZE / page_size. -/
def DEFAULT_PAGE_SIZE : Nat := 50

/-- Rust `Iterator::position`. -/
def position (p : α → Bool) : List α → Option Nat
  | [] => none
  | x :: xs => if p x then some 0 else (position p xs).map (· + 1)

/-- The start position computed by list_resources / list_templates from the
cursor: index after the first entry whose key equals the cursor, or 0 when
there is no cursor or it matches nothing. -/
def startIndex (key : α → String) (all : List α) : Option String → Nat
  | some c =>
      match position (fun x => key x == c) all with
      | some p => p + 1
      | none => 0
  | none => 0

/-- resources/mod.rs list_resources and list_templates share this pagination
scheme over the registry snapshot `all` (the values of the hash map in its
iteration order): slice [start, min (start+50) len), and return the last
sliced key as the next cursor when entries remain.  The in-bounds index
`all[end_pos - 1]` of the Rust code is rendered with `[·]?`; the branch
guarantees it is inhabited. -/
def listPaged (key : α → String) (all : List α) (cursor : Option String) :
    List α × Option String :=
  let start_pos := startIndex key all cursor
  let end_pos := min (start_pos + DEFAULT_PAGE_SIZE) all.length
  let page := (all.drop start_pos).take DEFAULT_PAGE_SIZE
  let next_cursor := if end_pos < all.length then (all[end_pos - 1]?).map key else none
  (page, next_cursor)

/-- resources/mod.rs: ResourceManager::list_resources (keyed by uri). -/
def list_resources (all : List Resource) (cursor : Option String) :
    List Resource × Option String :=
  listPaged (fun r => r.uri) all cursor

/-- resources/mod.rs: ResourceManager::list_templates (keyed by uri_template). -/
def list_templates (all : List ResourceTemplate) (cursor : Option String) :
    List ResourceTemplate × Option String :=
  listPaged (fun t => t.uri_template) all cursor

/-- tools/mod.rs: ToolManager::list_tools — returns every registered tool
(no pagination, no sorting). -/
def list_tools (all : List Tool) : List Tool := all

/-- prompts.rs list_prompts: sort by name. -/
def sort_by_name (prompts : List Prompt) : List Prompt :=
  prompts.mergeSort (fun a b => strLe a.name b.name)

/-- prompts.rs list_prompts: cursor handling on the sorted list — an empty or
absent cursor keeps the whole list, otherwise skip up to and including the
first entry named like the cursor (skip_while + skip(1)). -/
def cursorRest (sorted : List Prompt) : Option String → List Prompt
  | some c =>
      if c = "" then sorted
      else (sorted.dropWhile (fun p => !(p.name == c))).drop 1
  | none => sorted

/-- prompts.rs: PromptManager::list_prompts.  The in-bounds index
`prompt_list[page_size - 1]` is rendered with `[·]?`; the branch guarantees
it is inhabited. -/
def list_prompts (prompts : List Prompt) (cursor : Option String) :
    List Prompt × Option String :=
  let prompt_list := cursorRest (sort_by_name prompts) cursor
  if prompt_list.length > DEFAULT_PAGE_SIZE then
    match prompt_list[DEFAULT_PAGE_SIZE - 1]? with
    | some p => (prompt_list.take DEFAULT_PAGE_SIZE, some p.name)
    | none => (prompt_list.take DEFAULT_PAGE_SIZE, none)
  else (prompt_list, none)

/-- Repeatedly call a paginated list method, feeding back the returned
cursor, and concatenate the pages; fuel bounds the recursion. -/
def iterPagesAux (step : Option String → List α × Option String) :
    Option String → Nat → List α
  | _, 0 => []
  | cursor, fuel + 1 =>
    match step cursor with
    | (page, none) => page
    | (page, some c) => page ++ iterPagesAux step (some c) fuel

/-- Full cursor iteration of resources/list starting with no cursor. -/
def iter_resources (all : List Resource) : List Resource :=
  iterPagesAux (list_resources all) none (all.length + 1)

/-- Full cursor iteration of resources/templates/list starting with no cursor. -/
def iter_templates (all : List ResourceTemplate) : List ResourceTemplate :=
  iterPagesAux (list_templates all) none (all.length + 1)

/-- Full cursor iteration of prompts/list starting with no cursor. -/
def iter_prompts (prompts : List Prompt) : List Prompt :=
  iterPagesAux (list_prompts prompts) none (prompts.length + 1)

/-- Local broadcast signals a registry can emit on mutation.  prompt_update
models a send on PromptManager::update_tx (consumed by the server task that
emits notifications/prompts/list_changed); resource_update models a send on
ResourceManager::update_tx carrying the uri (consumed by the task that emits
notifications/resources/updated). -/
inductive Signal where
  | prompt_update : Signal
  | resource_update : String → Signal

/-- tools/mod.rs: ToolHandler. -/
def ToolHandler : Type := Json → Except String ToolCallResult

/-- resources/mod.rs: ResourceContentProvider. -/
def ResourceContentProvider : Type := Unit → Except String (List ResourceContent)

/-- resources/mod.rs: TemplateCompletionProvider. -/
def TemplateCompletionProvider : Type :=
  String → String → Option String → Except String (List CompletionItem)

/-- prompts.rs: PromptHandler. -/
def PromptHandler : Type :=
  Option (List (String × String)) → Except String (List PromptMessage)

/-- Prompt-argument completion provider (server.rs with_prompt_completion):
takes the parameter name and the partial value. -/
def PromptCompletionProvider : Type :=
  String → Option String → Except String (List String)

/-- tools/mod.rs: ToolManager::register_tool — inserts (replacing any
existing entry with the same name).  ToolManager has no update channel, so
no signal is ever emitted; the spawned insertion task is modelled as the
completed insert.  The second component lists the emitted signals. -/
def register_tool (tools : List (String × Tool × ToolHandler)) (tool : Tool)
    (handler : ToolHandler) : List (String × Tool × ToolHandler) × List Signal :=
  (insertKey tool.name (tool, handler) tools, [])

/-- tools/mod.rs: ToolManager::execute_tool. -/
def execute_tool (tools : List (String × Tool × ToolHandler)) (name : String)
    (arguments : Json) : Except String ToolCallResult :=
  match tools.lookup name with
  | some (_, handler) => handler arguments
  | none => .error ("Tool not found: " ++ name)

/-- resources/mod.rs: ResourceManager::register_resource — inserts under the
uri; nothing is sent on update_tx (only update_resource signals). -/
def register_resource (resources : List (String × Resource × ResourceContentProvider))
    (resource : Resource) (provider : ResourceContentProvider) :
    List (String × Resource × ResourceContentProvider) × List Signal :=
  (insertKey resource.uri (resource, provider) resources, [])

/-- resources/mod.rs: ResourceManager::update_resource — replaces the entry
and sends the uri on update_tx. -/
def update_resource (resources : List (String × Resource × ResourceContentProvider))
    (resource : Resource) (provider : ResourceContentProvider) :
    List (String × Resource × ResourceContentProvider) × List Signal :=
  (insertKey resource.uri (resource, provider) resources, [.resource_update resource.uri])

/-- prompts.rs: PromptManager::register_prompt — inserts the declaration and
the handler under the name and sends () on update_tx. -/
def register_prompt (prompts : List (String × Prompt)) (handlers : List (String × PromptHandler))
    (prompt : Prompt) (handler : PromptHandler) :
    (List (String × Prompt) × List (String × PromptHandler)) × List Signal :=
  ((insertKey prompt.name prompt prompts, insertKey prompt.name handler handlers),
    [.prompt_update])

/-- resources/mod.rs: ResourceManager::subscribe — requires that the uri is a
registered resource, then adds the client id to the uri's subscriber set. -/
def subscribe (resources : List (String × Resource × ResourceContentProvider))
    (subscriptions : List (String × List String)) (client_id uri : String) :
    Except String (List (String × List String)) :=
  if (resources.lookup uri).isNone then
    .error ("Resource not found: " ++ uri)
  else
    match subscriptions.lookup uri with
    | some subscribers => .ok (insertKey uri (insertSet client_id subscribers) subscriptions)
    | none => .ok (insertKey uri (insertSet client_id []) subscriptions)

/-- List map remove (HashMap::remove). -/
def removeKey (k : String) : List (String × α) → List (String × α)
  | [] => []
  | (k', v') :: rest => if k' == k then rest else (k', v') :: removeKey k rest

/-- resources/mod.rs: ResourceManager::unsubscribe — removes the client id
from the uri's subscriber set (dropping the key if the set empties); always
succeeds. -/
def unsubscribe (subscriptions : List (String × List String)) (client_id uri : String) :
    Except String (List (String × List String)) :=
  match subscriptions.lookup uri with
  | some subscribers =>
      let subscribers' := subscribers.erase client_id
      if subscribers'.isEmpty then .ok (removeKey uri subscriptions)
      else .ok (insertKey uri subscribers' subscriptions)
  | none => .ok subscriptions

/-- resources/mod.rs: ResourceManager::get_resource_content — a directly
registered resource's provider is invoked; otherwise the template loop's
inner lookup of the same map can never succeed (the direct lookup has
already failed), so the fall-through error is reached. -/
def get_resource_content (resources : List (String × Resource × ResourceContentProvider))
    (templates : List (String × ResourceTemplate)) (uri : String) :
    Except String (List ResourceContent) :=
  match resources.lookup uri with
  | some (_, provider) => provider ()
  | none =>
      let rec go : List (String × ResourceTemplate) → Except String (List ResourceContent)
        | [] => .error ("Resource not found: " ++ uri)
        | (template_uri, _) :: rest =>
            if strStartsWith uri (((template_uri.splitOn "\x7b").headD "")) then
              match resources.lookup uri with
              | some (_, provider) => provider ()
              | none => go rest
            else go rest
      go templates

/-- resources/mod.rs: ResourceManager::get_completions — invoke the provider
registered for the template uri, or return an empty list. -/
def resource_get_completions
    (completion_providers : List (String × TemplateCompletionProvider))
    (template_uri parameter : String) (value : Option String) :
    Except String (List CompletionItem) :=
  match completion_providers.lookup template_uri with
  | some provider => provider template_uri parameter value
  | none => .ok []

/-- Modelled from the spec: PromptManager::get_completions and its provider
registry are invoked from server.rs and completion_handler.rs but their
definitions are not under src/ (prompts.rs as packaged lacks them).  Spec
§4.6: the provider is keyed by (promptName, argName) and returns a plain
string list; a missing provider yields no completion values, surfaced here
as an error so the handler's fallback branch is reachable. -/
def prompt_get_completions
    (providers : List ((String × String) × PromptCompletionProvider))
    (name arg_name : String) (value : Option String) :
    Except String (List String) :=
  match providers.lookup (name, arg_name) with
  | some provider => provider arg_name value
  | none => .error ("No completion provider for prompt: " ++ name)

/-- prompts.rs: PromptManager::validate_arguments, required-argument pass:
first missing or all-whitespace required argument aborts with its message. -/
def checkRequired (args : Option (List (String × String))) :
    List PromptArgument → Except String Unit
  | [] => .ok ()
  | arg :: rest =>
    if arg.required.getD false then
      match args with
      | some m =>
          match m.lookup arg.name with
          | none => .error ("Missing required argument: " ++ arg.name)
          | some value =>
              if trimIsEmpty value then
                .error ("Required argument cannot be empty: " ++ arg.name)
              else checkRequired args rest
      | none => .error "Missing required arguments"
    else checkRequired args rest

/-- prompts.rs: PromptManager::validate_arguments, unexpected-argument pass
over the supplied map (iteration order of the argument hash map is modelled
by the list order). -/
def checkUnexpected (prompt_args : List PromptArgument) :
    List (String × String) → Except String Unit
  | [] => .ok ()
  | (arg_name, _) :: rest =>
    if prompt_args.any (fun a => a.name == arg_name) then
      checkUnexpected prompt_args rest
    else .error ("Unexpected argument: " ++ arg_name)

/-- prompts.rs: PromptManager::validate_arguments. -/
def validate_arguments (prompt : Prompt) (args : Option (List (String × String))) :
    Except String Unit :=
  match prompt.arguments with
  | some prompt_args => do
      checkRequired args prompt_args
      match args with
      | some m => checkUnexpected prompt_args m
      | none => .ok ()
  | none => .ok ()

/-- prompts.rs: PromptManager::get_prompt — look up the declaration,
validate the arguments, run the handler, build the result. -/
def get_prompt (prompts : List (String × Prompt)) (handlers : List (String × PromptHandler))
    (name : String) (args : Option (List (String × String))) :
    Except String PromptGetResult :=
  match prompts.lookup name with
  | none => .error ("Prompt not found: " ++ name)
  | some prompt => do
      validate_arguments prompt args
      match handlers.lookup name with
      | some handler => do
          let messages ← handler args
          .ok ⟨prompt.description, messages⟩
      | none => .error ("Handler not found for prompt: " ++ name)

end Mcp

namespace Mcp

/-- Encode an annotation / experimental map (serde serializes HashMap as an
object; the list order models the map's arbitrary iteration order). -/
def encodeStrJsonMap (m : List (String × Json)) : Json := .obj m

/-- Encode a capability map of booleans. -/
def encodeStrBoolMap (m : List (String × Bool)) : Json :=
  .obj (m.map (fun kv => (kv.1, .bool kv.2)))

/-- Encode a map of strings. -/
def encodeStrStrMap (m : List (String × String)) : Json :=
  .obj (m.map (fun kv => (kv.1, .str kv.2)))

/-- Serialization of Tool (rename inputSchema; optional fields skipped). -/
def encodeTool (t : Tool) : Json :=
  .obj ([("name", .str t.name)] ++ optField "description" (t.description.map .str) ++
    [("inputSchema", t.input_schema)] ++
    optField "annotations" (t.annotations.map encodeStrJsonMap))

/-- Serialization of Resource. -/
def encodeResource (r : Resource) : Json :=
  .obj ([("uri", .str r.uri), ("name", .str r.name)] ++
    optField "description" (r.description.map .str) ++
    optField "mimeType" (r.mime_type.map .str) ++
    optField "size" (r.size.map (fun n => .num (Int.ofNat n))) ++
    optField "annotations" (r.annotations.map encodeStrJsonMap))

/-- Serialization of ResourceContent. -/
def encodeResourceContent (c : ResourceContent) : Json :=
  .obj ([("uri", .str c.uri), ("mimeType", .str c.mime_type)] ++
    optField "text" (c.text.map .str) ++ optField "blob" (c.blob.map .str))

/-- Serialization of ResourceTemplate (rename uriTemplate, mimeType). -/
def encodeTemplate (t : ResourceTemplate) : Json :=
  .obj ([("uriTemplate", .str t.uri_template), ("name", .str t.name)] ++
    optField "description" (t.description.map .str) ++
    optField "mimeType" (t.mime_type.map .str) ++
    optField "annotations" (t.annotations.map encodeStrJsonMap))

/-- Serialization of PromptArgument. -/
def encodePromptArgument (a : PromptArgument) : Json :=
  .obj ([("name", .str a.name)] ++ optField "description" (a.description.map .str) ++
    optField "required" (a.required.map .bool))

/-- Serialization of Prompt. -/
def encodePrompt (p : Prompt) : Json :=
  .obj ([("name", .str p.name)] ++ optField "description" (p.description.map .str) ++
    optField "arguments" (p.arguments.map (fun as => .arr (as.map encodePromptArgument))) ++
    optField "annotations" (p.annotations.map encodeStrJsonMap))

/-- Serialization of PromptMessageContent (internally tagged by "type";
the image mime_type field is renamed mimeType). -/
def encodePromptMessageContent : PromptMessageContent → Json
  | .text t => .obj [("type", .str "text"), ("text", .str t)]
  | .image data mime => .obj [("type", .str "image"), ("data", .str data), ("mimeType", .str mime)]
  | .resource r =>
      .obj [("type", .str "resource"),
        ("resource", .obj ([("uri", .str r.uri), ("mimeType", .str r.mime_type)] ++
          optField "text" (r.text.map .str) ++ optField "data" (r.data.map .str)))]

/-- Serialization of PromptMessage. -/
def encodePromptMessage (m : PromptMessage) : Json :=
  .obj [("role", .str m.role), ("content", encodePromptMessageContent m.content)]

/-- Serialization of PromptGetResult. -/
def encodePromptGetResult (r : PromptGetResult) : Json :=
  .obj (optField "description" (r.description.map .str) ++
    [("messages", .arr (r.messages.map encodePromptMessage))])

/-- Serialization of ToolContent (internally tagged by "type"; image and
audio mime_type fields are renamed mimeType). -/
def encodeToolContent : ToolContent → Json
  | .text t => .obj [("type", .str "text"), ("text", .str t)]
  | .image data mime => .obj [("type", .str "image"), ("data", .str data), ("mimeType", .str mime)]
  | .audio data mime => .obj [("type", .str "audio"), ("data", .str data), ("mimeType", .str mime)]
  | .resource r => .obj [("type", .str "resource"), ("resource", r)]

/-- Serialization of ToolCallResult (rename isError, skipped when None). -/
def encodeToolCallResult (r : ToolCallResult) : Json :=
  .obj ([("content", .arr (r.content.map encodeToolContent))] ++
    optField "isError" (r.is_error.map .bool))

/-- Serialization of CompletionResult (no rename on has_more) wrapped in
CompleteResponse. -/
def encodeCompleteResponse (r : CompletionResult) : Json :=
  .obj [("completion",
    .obj ([("values", .arr (r.values.map .str))] ++
      optField "total" (r.total.map (fun n => .num (Int.ofNat n))) ++
      [("has_more", .bool r.has_more)]))]

/-- Serialization of MessageContent from the sampling types (tag "type"; no
rename on the image mime_type field). -/
def encodeMessageContent : MessageContent → Json
  | .text t => .obj [("type", .str "text"), ("text", .str t)]
  | .image data mime => .obj [("type", .str "image"), ("data", .str data), ("mime_type", .str mime)]

/-- Serialization of CreateMessageResult (no renames). -/
def encodeCreateMessageResult (r : CreateMessageResult) : Json :=
  .obj ([("role", .str r.role), ("content", encodeMessageContent r.content)] ++
    optField "model" (r.model.map .str) ++
    optField "stop_reason" (r.stop_reason.map .str) ++
    optField "metadata" (r.metadata.map encodeStrJsonMap))

/-- Serialization of the InitializeResult the server constructs
(handle_initialize): protocol version, the three advertised capability maps,
server info; instructions is None and omitted. -/
def encodeInitializeResult (server_info : ServerInfo) : Json :=
  .obj [("protocolVersion", .str PROTOCOL_VERSION),
    ("capabilities", .obj [
      ("prompts", encodeStrBoolMap [("listChanged", true)]),
      ("resources", encodeStrBoolMap [("listChanged", true), ("subscribe", true)]),
      ("tools", encodeStrBoolMap [("listChanged", true)])]),
    ("serverInfo", .obj [("name", .str server_info.name), ("version", .str server_info.version)])]

/-- Deserialize an optional String field. -/
def parseOptString (v : Option Json) : Option (Option String) :=
  match v with
  | none => some none
  | some .null => some none
  | some (.str s) => some (some s)
  | some _ => none

/-- Deserialize a map of strings (HashMap of String). -/
def parseStrStrMap : Json → Option (List (String × String))
  | .obj o =>
      o.foldr (fun kv acc =>
        match acc, kv.2 with
        | some m, .str s => some ((kv.1, s) :: m)
        | _, _ => none) (some [])
  | _ => none

/-- Deserialize a map of booleans. -/
def parseStrBoolMap : Json → Option (List (String × Bool))
  | .obj o =>
      o.foldr (fun kv acc =>
        match acc, kv.2 with
        | some m, .bool b => some ((kv.1, b) :: m)
        | _, _ => none) (some [])
  | _ => none

/-- Deserialize a plain JSON map. -/
def parseStrJsonMap : Json → Option (List (String × Json))
  | .obj o => some o
  | _ => none

/-- Params of the list methods: optional cursor. -/
structure ListParams where
  cursor : Option String

/-- Deserialize ResourcesListParams / ResourceTemplatesListParams /
PromptsListParams (one optional cursor field). -/
def parseListParams : Json → Option ListParams
  | .obj o =>
      match parseOptString (getField o "cursor") with
      | some c => some ⟨c⟩
      | none => none
  | _ => none

/-- Deserialize ToolCallParams (name and a required arguments JSON value). -/
def parseToolCallParams : Json → Option (String × Json)
  | .obj o =>
      match getField o "name", getField o "arguments" with
      | some (.str name), some args => some (name, args)
      | _, _ => none
  | _ => none

/-- Deserialize ResourceReadParams / ResourceSubscribeParams /
ResourceUnsubscribeParams (one required uri field). -/
def parseUriParams : Json → Option String
  | .obj o =>
      match getField o "uri" with
      | some (.str uri) => some uri
      | _ => none
  | _ => none

/-- Deserialize PromptGetParams (required name, optional string-map
arguments). -/
def parsePromptGetParams : Json → Option (String × Option (List (String × String)))
  | .obj o =>
      match getField o "name" with
      | some (.str name) =>
          match getField o "arguments" with
          | none => some (name, none)
          | some .null => some (name, none)
          | some v =>
              match parseStrStrMap v with
              | some m => some (name, some m)
              | none => none
      | _ => none
  | _ => none

/-- Deserialize CompletionReference (tag "type"). -/
def parseCompletionReference : Json → Option CompletionReference
  | .obj o =>
      match getField o "type" with
      | some (.str "ref/prompt") =>
          match getField o "name" with
          | some (.str name) => some (.prompt name)
          | _ => none
      | some (.str "ref/resource") =>
          match getField o "uri" with
          | some (.str uri) => some (.resource uri)
          | _ => none
      | _ => none
  | _ => none

/-- Deserialize CompleteRequest (ref and argument, the argument value being a
required string). -/
def parseCompleteRequest : Json → Option CompleteRequest
  | .obj o =>
      match getField o "ref", getField o "argument" with
      | some r, some (.obj a) =>
          match parseCompletionReference r, getField a "name", getField a "value" with
          | some ref, some (.str n), some (.str v) => some ⟨ref, ⟨n, v⟩⟩
          | _, _, _ => none
      | _, _ => none
  | _ => none

/-- Deserialize ClientCapabilities (all fields optional). -/
def parseClientCapabilities : Json → Option ClientCapabilities
  | .obj o =>
      let rootsF := getField o "roots"
      let samplingF := getField o "sampling"
      let experimentalF := getField o "experimental"
      match rootsF with
      | some .null | none =>
          match samplingF with
          | some .null | none =>
              match experimentalF with
              | some .null | none => some ⟨none, none, none⟩
              | some v => (parseStrJsonMap v).map (fun m => ⟨none, none, some m⟩)
          | some v =>
              match parseStrJsonMap v, decodeOptJson experimentalF with
              | some m, none => some ⟨none, some m, none⟩
              | some m, some e => (parseStrJsonMap e).map (fun em => ⟨none, some m, some em⟩)
              | none, _ => none
      | some v =>
          match parseStrBoolMap v with
          | none => none
          | some rm =>
              match decodeOptJson samplingF, decodeOptJson experimentalF with
              | none, none => some ⟨some rm, none, none⟩
              | some sv, none => (parseStrJsonMap sv).map (fun m => ⟨some rm, some m, none⟩)
              | none, some e => (parseStrJsonMap e).map (fun em => ⟨some rm, none, some em⟩)
              | some sv, some e =>
                  match parseStrJsonMap sv, parseStrJsonMap e with
                  | some m, some em => some ⟨some rm, some m, some em⟩
                  | _, _ => none
  | _ => none

/-- Deserialize InitializeParams (renames protocolVersion, clientInfo). -/
def parseInitializeParams : Json → Option InitializeParams
  | .obj o =>
      match getField o "protocolVersion", getField o "capabilities", getField o "clientInfo" with
      | some (.str v), some caps, some (.obj ci) =>
          match parseClientCapabilities caps, getField ci "name", getField ci "version" with
          | some c, some (.str n), some (.str ver) => some ⟨v, c, ⟨n, ver⟩⟩
          | _, _, _ => none
      | _, _, _ => none
  | _ => none

/-- Deserialize a sampling MessageContent (tag "type"; image fields data and
mime_type). -/
def parseMessageContent : Json → Option MessageContent
  | .obj o =>
      match getField o "type" with
      | some (.str "text") =>
          match getField o "text" with
          | some (.str t) => some (.text t)
          | _ => none
      | some (.str "image") =>
          match getField o "data", getField o "mime_type" with
          | some (.str d), some (.str m) => some (.image d m)
          | _, _ => none
      | _ => none
  | _ => none

/-- Deserialize a list of sampling Messages. -/
def parseMessages : List Json → Option (List Message)
  | [] => some []
  | v :: rest =>
      match v with
      | .obj o =>
          match getField o "role", (getField o "content").bind parseMessageContent with
          | some (.str role), some content =>
              (parseMessages rest).map (fun ms => ⟨role, content⟩ :: ms)
          | _, _ => none
      | _ => none

/-- Deserialize a u32 field. -/
def parseOptU32 (v : Option Json) : Option (Option Nat) :=
  match v with
  | none => some none
  | some .null => some none
  | some (.num n) => if 0 ≤ n ∧ n < 4294967296 then some (some n.toNat) else none
  | some _ => none

/-- Deserialize CreateMessageParams (messages required; the tuning fields
optional, kept as raw JSON where float-valued). -/
def parseCreateMessageParams : Json → Option CreateMessageParams
  | .obj o =>
      match getField o "messages" with
      | some (.arr ms) =>
          match parseMessages ms with
          | none => none
          | some messages =>
              match parseOptString (getField o "system_prompt"),
                parseOptU32 (getField o "max_tokens") with
              | some sp, some mt =>
                  match getField o "context" with
                  | none => some ⟨messages, decodeOptJson (getField o "model_preferences"),
                      sp, mt, decodeOptJson (getField o "temperature"),
                      decodeOptJson (getField o "top_p"), none⟩
                  | some .null => some ⟨messages, decodeOptJson (getField o "model_preferences"),
                      sp, mt, decodeOptJson (getField o "temperature"),
                      decodeOptJson (getField o "top_p"), none⟩
                  | some cv =>
                      (parseStrStrMap cv).map (fun ctx =>
                        ⟨messages, decodeOptJson (getField o "model_preferences"),
                          sp, mt, decodeOptJson (getField o "temperature"),
                          decodeOptJson (getField o "top_p"), some ctx⟩)
              | _, _ => none
      | _ => none
  | _ => none

end Mcp

namespace Mcp

/-- The server's state as seen by the dispatcher: lifecycle state plus the
three managers (registries as association lists; the list order of each
registry models the backing hash map's unspecified iteration order). -/
structure Server where
  name : String
  version : String
  state : ServerState
  tools : List (String × Tool × ToolHandler)
  resources : List (String × Resource × ResourceContentProvider)
  templates : List (String × ResourceTemplate)
  subscriptions : List (String × List String)
  completion_providers : List (String × TemplateCompletionProvider)
  prompts : List (String × Prompt)
  prompt_handlers : List (String × PromptHandler)
  prompt_completion_providers : List ((String × String) × PromptCompletionProvider)

/-- server.rs: Server::get_server_info. -/
def Server.get_server_info (s : Server) : ServerInfo := ⟨s.name, s.version⟩

/-- The "Server not initialized" error reply every state-gated handler sends
when the state is not Ready (error_codes::SERVER_NOT_INITIALIZED = -32003). -/
def notInitializedReply (id : Json) : JsonRpcMessage :=
  .mkError id (-32003) "Server not initialized" none

/-- mcp-protocol/src/version.rs: version_mismatch_error, serialized as serde
does (fields supported, requested). -/
def versionMismatchJson (requested : String) : Json :=
  .obj [("supported", .arr [.str PROTOCOL_VERSION]), ("requested", .str requested)]

/-- server.rs: Server::handle_initialize.  Parses the params, validates the
protocol version, then unconditionally stores Initializing and replies with
the InitializeResult — there is no check of the current state.  serde's
error text inside the invalid-params message is abstracted. -/
def handle_initialize_request (s : Server) (id : Json) (params : Option Json) :
    JsonRpcMessage × Server :=
  match params with
  | none => (.mkError id (-32602) "Missing initialize parameters" none, s)
  | some pj =>
      match parseInitializeParams pj with
      | none => (.mkError id (-32602) "Invalid initialize parameters" none, s)
      | some p =>
          if !(is_supported_version p.protocol_version) then
            (.mkError id (-32602) "Unsupported protocol version"
              (some (versionMismatchJson p.protocol_version)), s)
          else
            (.mkResponse id (encodeInitializeResult s.get_server_info),
              { s with state := .Initializing })

/-- server.rs: Server::handle_initialized — store Ready. -/
def handle_initialized (s : Server) : Server :=
  { s with state := .Ready }

/-- server.rs: Server::handle_tools_list — after the Ready gate, reply with
every registered tool and an empty nextCursor (the params, and hence any
cursor, are never read). -/
def handle_tools_list (s : Server) (id : Json) (_params : Option Json) : JsonRpcMessage :=
  if s.state ≠ .Ready then notInitializedReply id
  else
    .mkResponse id (.obj [
      ("tools", .arr ((list_tools (s.tools.map (fun kv => kv.2.1))).map encodeTool)),
      ("nextCursor", .str "")])

/-- server.rs: Server::handle_tools_call. -/
def handle_tools_call (s : Server) (id : Json) (params : Option Json) : JsonRpcMessage :=
  if s.state ≠ .Ready then notInitializedReply id
  else
    match params with
    | none => .mkError id (-32602) "Missing tool call parameters" none
    | some pj =>
        match parseToolCallParams pj with
        | none => .mkError id (-32602) "Invalid tool call parameters" none
        | some (name, arguments) =>
            match execute_tool s.tools name arguments with
            | .ok result => .mkResponse id (encodeToolCallResult result)
            | .error err => .mkError id (-32603) ("Tool execution error: " ++ err) none

/-- server.rs: Server::handle_resources_list (cursor pagination over the
resource registry snapshot). -/
def handle_resources_list (s : Server) (id : Json) (params : Option Json) : JsonRpcMessage :=
  if s.state ≠ .Ready then notInitializedReply id
  else
    match params with
    | none =>
        let (resources, next) := list_resources (s.resources.map (fun kv => kv.2.1)) none
        .mkResponse id (.obj [("resources", .arr (resources.map encodeResource)),
          ("nextCursor", .str (next.getD ""))])
    | some pj =>
        match parseListParams pj with
        | none => .mkError id (-32602) "Invalid resource list parameters" none
        | some p =>
            let (resources, next) := list_resources (s.resources.map (fun kv => kv.2.1)) p.cursor
            .mkResponse id (.obj [("resources", .arr (resources.map encodeResource)),
              ("nextCursor", .str (next.getD ""))])

/-- server.rs: Server::handle_resources_read. -/
def handle_resources_read (s : Server) (id : Json) (params : Option Json) : JsonRpcMessage :=
  if s.state ≠ .Ready then notInitializedReply id
  else
    match params with
    | none => .mkError id (-32602) "Missing resource read parameters" none
    | some pj =>
        match parseUriParams pj with
        | none => .mkError id (-32602) "Invalid resource read parameters" none
        | some uri =>
            match get_resource_content s.resources s.templates uri with
            | .ok contents =>
                .mkResponse id (.obj [("contents", .arr (contents.map encodeResourceContent))])
            | .error err =>
                .mkError id (-32002) ("Resource not found: " ++ err)
                  (some (.obj [("uri", .str uri)]))

/-- server.rs: Server::handle_resources_subscribe — the subscriber identity
is the request id rendered to a string. -/
def handle_resources_subscribe (s : Server) (id : Json) (params : Option Json) :
    JsonRpcMessage × Server :=
  if s.state ≠ .Ready then (notInitializedReply id, s)
  else
    match params with
    | none => (.mkError id (-32602) "Missing resource subscribe parameters" none, s)
    | some pj =>
        match parseUriParams pj with
        | none => (.mkError id (-32602) "Invalid resource subscribe parameters" none, s)
        | some uri =>
            let client_id := id.render
            match subscribe s.resources s.subscriptions client_id uri with
            | .ok subs =>
                (.mkResponse id (.obj [("success", .bool true)]),
                  { s with subscriptions := subs })
            | .error err =>
                (.mkError id (-32002) ("Resource subscription error: " ++ err)
                  (some (.obj [("uri", .str uri)])), s)

/-- resource_extensions.rs: Server::handle_resources_unsubscribe — again the
identity removed is this request's own id rendered to a string. -/
def handle_resources_unsubscribe (s : Server) (id : Json) (params : Option Json) :
    JsonRpcMessage × Server :=
  if s.state ≠ .Ready then (notInitializedReply id, s)
  else
    match params with
    | none => (.mkError id (-32602) "Missing resource unsubscribe parameters" none, s)
    | some pj =>
        match parseUriParams pj with
        | none => (.mkError id (-32602) "Invalid resource unsubscribe parameters" none, s)
        | some uri =>
            let client_id := id.render
            match unsubscribe s.subscriptions client_id uri with
            | .ok subs =>
                (.mkResponse id (.obj [("success", .bool true)]),
                  { s with subscriptions := subs })
            | .error err =>
                (.mkError id (-32603) ("Resource unsubscribe error: " ++ err) none, s)

/-- resource_extensions.rs: Server::handle_resources_templates_list. -/
def handle_resources_templates_list (s : Server) (id : Json) (params : Option Json) :
    JsonRpcMessage :=
  if s.state ≠ .Ready then notInitializedReply id
  else
    match params with
    | none =>
        let (templates, next) := list_templates (s.templates.map (fun kv => kv.2)) none
        .mkResponse id (.obj [("resourceTemplates", .arr (templates.map encodeTemplate)),
          ("nextCursor", .str (next.getD ""))])
    | some pj =>
        match parseListParams pj with
        | none => .mkError id (-32602) "Invalid template list parameters" none
        | some p =>
            let (templates, next) := list_templates (s.templates.map (fun kv => kv.2)) p.cursor
            .mkResponse id (.obj [("resourceTemplates", .arr (templates.map encodeTemplate)),
              ("nextCursor", .str (next.getD ""))])

/-- server_prompts.rs: Server::handle_prompts_list. -/
def handle_prompts_list (s : Server) (id : Json) (params : Option Json) : JsonRpcMessage :=
  if s.state ≠ .Ready then notInitializedReply id
  else
    match params with
    | none =>
        let (prompts, next) := list_prompts (s.prompts.map (fun kv => kv.2)) none
        .mkResponse id (.obj [("prompts", .arr (prompts.map encodePrompt)),
          ("nextCursor", .str (next.getD ""))])
    | some pj =>
        match parseListParams pj with
        | none => .mkError id (-32602) "Invalid prompt list parameters" none
        | some p =>
            let (prompts, next) := list_prompts (s.prompts.map (fun kv => kv.2)) p.cursor
            .mkResponse id (.obj [("prompts", .arr (prompts.map encodePrompt)),
              ("nextCursor", .str (next.getD ""))])

/-- server_prompts.rs: Server::handle_prompts_get — a get_prompt failure
(unknown prompt, validation failure, handler failure) is reported as
INVALID_PARAMS with the error text appended to "Prompt error: " and the
prompt name in data. -/
def handle_prompts_get (s : Server) (id : Json) (params : Option Json) : JsonRpcMessage :=
  if s.state ≠ .Ready then notInitializedReply id
  else
    match params with
    | none => .mkError id (-32602) "Missing prompt get parameters" none
    | some pj =>
        match parsePromptGetParams pj with
        | none => .mkError id (-32602) "Invalid prompt get parameters" none
        | some (name, args) =>
            match get_prompt s.prompts s.prompt_handlers name args with
            | .ok result => .mkResponse id (encodePromptGetResult result)
            | .error err =>
                .mkError id (-32602) ("Prompt error: " ++ err)
                  (some (.obj [("name", .str name)]))

/-- completion_handler.rs: extract_parameter_from_uri — param_name is
returned when the uri contains the literal braced parameter. -/
def extract_parameter_from_uri (uri param_name : String) : Option String :=
  if containsSubstr uri ("\x7b" ++ param_name ++ "\x7d") then some param_name else none

/-- completion_handler.rs: Server::handle_completion_complete.  Note: unlike
every other request handler, there is no Ready-state gate — the request is
served in any lifecycle state. -/
def handle_completion_complete (s : Server) (id : Json) (params : Option Json) :
    JsonRpcMessage :=
  match params with
  | none => .mkError id (-32602) "Missing completion parameters" none
  | some pj =>
      match parseCompleteRequest pj with
      | none => .mkError id (-32602) "Invalid completion parameters" none
      | some req =>
          match req.ref with
          | .resource uri =>
              match extract_parameter_from_uri uri req.argument.name with
              | some param_name =>
                  match resource_get_completions s.completion_providers uri param_name
                      (some req.argument.value) with
                  | .ok items =>
                      .mkResponse id (encodeCompleteResponse
                        ⟨items.map (fun i => i.label), some items.length, false⟩)
                  | .error err =>
                      .mkError id (-32603) ("Completion error: " ++ err) none
              | none =>
                  .mkResponse id (encodeCompleteResponse ⟨[], some 0, false⟩)
          | .prompt name =>
              match prompt_get_completions s.prompt_completion_providers name
                  req.argument.name (some req.argument.value) with
              | .ok completions =>
                  .mkResponse id (encodeCompleteResponse ⟨completions, none, false⟩)
              | .error _ =>
                  .mkResponse id (encodeCompleteResponse ⟨[], some 0, false⟩)

/-- server.rs: Server::handle_message — method dispatch.  Requests route to
the handler for their method (unknown methods get METHOD_NOT_FOUND); the
initialized notification moves the state to Ready; responses and other
notifications are logged and dropped.  The result pairs the optional reply
with the successor server state. -/
def handle_message (s : Server) (message : JsonRpcMessage) :
    Option JsonRpcMessage × Server :=
  match message with
  | .request _ id method params =>
      if method == "initialize" then
        let (r, s') := handle_initialize_request s id params
        (some r, s')
      else if method == "tools/list" then (some (handle_tools_list s id params), s)
      else if method == "tools/call" then (some (handle_tools_call s id params), s)
      else if method == "resources/list" then (some (handle_resources_list s id params), s)
      else if method == "resources/read" then (some (handle_resources_read s id params), s)
      else if method == "resources/subscribe" then
        let (r, s') := handle_resources_subscribe s id params
        (some r, s')
      else if method == "resources/unsubscribe" then
        let (r, s') := handle_resources_unsubscribe s id params
        (some r, s')
      else if method == "resources/templates/list" then
        (some (handle_resources_templates_list s id params), s)
      else if method == "prompts/list" then (some (handle_prompts_list s id params), s)
      else if method == "prompts/get" then (some (handle_prompts_get s id params), s)
      else if method == "completion/complete" then
        (some (handle_completion_complete s id params), s)
      else (some (.mkError id (-32601) ("Method not found: " ++ method) none), s)
  | .notification _ method _ =>
      if method == "notifications/initialized" then (none, handle_initialized s)
      else (none, s)
  | .response _ _ _ _ => (none, s)

/-- mcp-client/src/client.rs: Client::handle_sampling_create_message.  The
client state relevant to this handler is the sampling_enabled flag and the
optional registered callback; the reply is determined by (a) the capability
gate, (b) parameter decoding, (c) callback presence, (d) the callback's
outcome.  serde's error text inside the invalid-params message is
abstracted. -/
def handle_sampling_create_message (sampling_enabled : Bool)
    (sampling_callback : Option (CreateMessageParams → Except String CreateMessageResult))
    (id : Json) (params : Option Json) : JsonRpcMessage :=
  if !sampling_enabled then
    .mkError id (-32004) "Sampling is not enabled" none
  else
    match params with
    | none => .mkError id (-32602) "Missing sampling parameters" none
    | some pj =>
        match parseCreateMessageParams pj with
        | none => .mkError id (-32602) "Invalid sampling parameters" none
        | some p =>
            match sampling_callback with
            | none => .mkError id (-32005) "No sampling callback registered" none
            | some callback =>
                match callback p with
                | .ok result => .mkResponse id (encodeCreateMessageResult result)
                | .error err => .mkError id (-32006) ("Sampling error: " ++ err) none

end Mcp

namespace Mcp

/-- A concrete tool handler used by the concrete evaluations. -/
def sampleToolHandler : ToolHandler := fun _ => .ok ⟨[.text "ok"], some false⟩

/-- A concrete tool declaration. -/
def sampleTool : Tool := ⟨"hello", none, .obj [], none⟩

/-- A concrete resource content provider. -/
def sampleResourceProvider : ResourceContentProvider := fun _ => .ok []

/-- A concrete prompt declaring one required argument "who". -/
def samplePrompt : Prompt := ⟨"greet", none, some [⟨"who", none, some true⟩], none⟩

/-- The argument list of samplePrompt. -/
def samplePromptArgs : List PromptArgument := [⟨"who", none, some true⟩]

/-- A concrete prompt handler. -/
def samplePromptHandler : PromptHandler := fun _ => .ok []

/-- A freshly built server (state Created, all registries empty). -/
def sampleServer : Server :=
  { name := "s", version := "1", state := .Created, tools := [], resources := [],
    templates := [], subscriptions := [], completion_providers := [], prompts := [],
    prompt_handlers := [], prompt_completion_providers := [] }

/-- The sample server after a completed initialize handshake. -/
def serverReady : Server := { sampleServer with state := .Ready }

/-- A concrete resource with uri "a". -/
def resource_a : Resource := ⟨"a", "a", none, none, none, none⟩

/-- A concrete resource with uri "b". -/
def resource_b : Resource := ⟨"b", "b", none, none, none, none⟩

/-- A registry snapshot of 51 distinct tools t0..t50. -/
def tools51 : List (String × Tool × ToolHandler) :=
  (List.range 51).map (fun i =>
    ("t" ++ toString i, ⟨"t" ++ toString i, none, .obj [], none⟩, sampleToolHandler))

/-- A Ready server holding 51 registered tools. -/
def server51 : Server := { sampleServer with state := .Ready, tools := tools51 }

/-- A Ready server holding the sample prompt. -/
def serverWithPrompt : Server :=
  { sampleServer with
    state := .Ready
    prompts := [("greet", samplePrompt)]
    prompt_handlers := [("greet", samplePromptHandler)] }

/-- A Ready server holding resource "a". -/
def serverWithResource : Server :=
  { sampleServer with
    state := .Ready
    resources := [("a", resource_a, sampleResourceProvider)] }

/-- A concrete completion/complete parameter object (ref/resource on a
template uri with a braced parameter p). -/
def c1Params : Json := .obj [
  ("ref", .obj [("type", .str "ref/resource"), ("uri", .str "file:///\x7bp\x7d")]),
  ("argument", .obj [("name", .str "p"), ("value", .str "b")])]

/-- The completion/complete request used as C1 failing input. -/
def c1Request : JsonRpcMessage := .mkRequest (.num 1) "completion/complete" (some c1Params)

/-- Concrete, well-formed initialize parameters with the supported
protocol version. -/
def initParamsJson : Json := .obj [("protocolVersion", .str "2025-06-18"),
  ("capabilities", .obj []), ("clientInfo", .obj [("name", .str "c"), ("version", .str "1")])]

/-- A second initialize request (id 2). -/
def initRequest2 : JsonRpcMessage := .mkRequest (.num 2) "initialize" (some initParamsJson)

/-- prompts/get parameters naming the sample prompt with an empty
argument map. -/
def promptGetParamsJson : Json := .obj [("name", .str "greet"), ("arguments", .obj [])]

/-- Concrete, well-formed sampling/createMessage parameters. -/
def samplingParamsJson : Json := .obj [("messages", .arr [.obj [("role", .str "user"),
  ("content", .obj [("type", .str "text"), ("text", .str "hi")])]])]

/-- The decoded form of samplingParamsJson. -/
def sampleCreateMessageParams : CreateMessageParams :=
  ⟨[⟨"user", .text "hi"⟩], none, none, none, none, none, none⟩

/-- Observer: a field of a success response result object. -/
def resultField (m : JsonRpcMessage) (k : String) : Option Json :=
  match m with
  | .response _ _ (some (.obj o)) none => getField o k
  | _ => none

/-- Observer: length of a JSON array. -/
def jsonArrayLen : Option Json → Option Nat
  | some (.arr xs) => some xs.length
  | _ => none

end Mcp

namespace Mcp

/-- Rust Iterator::position finds the index of an entry by its key when the
keys are distinct. -/
theorem position_key_getElem (key : α → String) (l : List α) :
    ∀ (j : Nat) (hj : j < l.length), (l.map key).Nodup →
      position (fun x => key x == key l[j]) l = some j := by
  induction l with
  | nil => intro j hj _; simp at hj
  | cons a as ih =>
    intro j hj hnd
    cases j with
    | zero => simp [position]
    | succ j =>
      have hj' : j < as.length := by simpa using hj
      have hmem : key (as[j]) ∈ as.map key := List.mem_map_of_mem _ (as.getElem_mem hj')
      have hnd' : (as.map key).Nodup := (List.nodup_cons.mp (by simpa using hnd)).2
      have hne : key a ≠ key as[j] := by
        intro h
        exact (List.nodup_cons.mp (by simpa using hnd)).1 (h ▸ hmem)
      have hgl : (a :: as)[j+1] = as[j] := rfl
      rw [hgl]
      have hpred : (key a == key as[j]) = false := by
        simp [hne]
      simp only [position, hpred, Bool.false_eq_true, ite_false]
      rw [ih j hj' hnd']
      rfl

/-- Cursor iteration of listPaged from a cursor that resolves to position p
yields exactly the suffix from p, given distinct keys and enough fuel. -/
theorem iterPaged_eq_drop (key : α → String) (all : List α)
    (hnd : (all.map key).Nodup) :
    ∀ (fuel : Nat) (cursor : Option String) (p : Nat),
      startIndex key all cursor = p → all.length - p ≤ DEFAULT_PAGE_SIZE * fuel →
      iterPagesAux (listPaged key all) cursor fuel = all.drop p := by
  have hD : DEFAULT_PAGE_SIZE = 50 := rfl
  intro fuel
  induction fuel with
  | zero =>
    intro cursor p _ hlen
    have : all.length ≤ p := by omega
    simp [iterPagesAux, List.drop_eq_nil_of_le this]
  | succ fuel ih =>
    intro cursor p hstart hlen
    by_cases h50 : p + DEFAULT_PAGE_SIZE < all.length
    · -- more entries remain: next cursor points at the last sliced key
      have hidx : p + DEFAULT_PAGE_SIZE - 1 < all.length := by omega
      have hnext : (listPaged key all cursor).2 =
          some (key all[p + DEFAULT_PAGE_SIZE - 1]) := by
        simp only [listPaged, hstart]
        rw [if_pos (by omega : min (p + DEFAULT_PAGE_SIZE) all.length < all.length)]
        have hm : min (p + DEFAULT_PAGE_SIZE) all.length = p + DEFAULT_PAGE_SIZE := by omega
        rw [hm, List.getElem?_eq_getElem hidx]
        rfl
      have hpage : (listPaged key all cursor).1 = (all.drop p).take DEFAULT_PAGE_SIZE := by
        simp [listPaged, hstart]
      have hstart' : startIndex key all (some (key all[p + DEFAULT_PAGE_SIZE - 1])) =
          p + DEFAULT_PAGE_SIZE := by
        simp only [startIndex]
        rw [position_key_getElem key all (p + DEFAULT_PAGE_SIZE - 1) hidx hnd]
        show p + DEFAULT_PAGE_SIZE - 1 + 1 = p + DEFAULT_PAGE_SIZE
        omega
      have hih := ih (some (key all[p + DEFAULT_PAGE_SIZE - 1])) (p + DEFAULT_PAGE_SIZE)
        hstart' (by simp only [hD] at hlen ⊢; omega)
      have hsplit : listPaged key all cursor =
          ((all.drop p).take DEFAULT_PAGE_SIZE, some (key all[p + DEFAULT_PAGE_SIZE - 1])) :=
        Prod.ext hpage hnext
      simp only [iterPagesAux, hsplit]
      rw [hih]
      have hdd : all.drop (p + DEFAULT_PAGE_SIZE) = (all.drop p).drop DEFAULT_PAGE_SIZE := by
        rw [List.drop_drop]
      rw [hdd, List.take_append_drop]
    · -- the page exhausts the registry
      have hnext : (listPaged key all cursor).2 = none := by
        simp only [listPaged, hstart]
        rw [if_neg (by omega : ¬ min (p + DEFAULT_PAGE_SIZE) all.length < all.length)]
      have hpage : (listPaged key all cursor).1 = (all.drop p).take DEFAULT_PAGE_SIZE := by
        simp [listPaged, hstart]
      have hsplit : listPaged key all cursor =
          ((all.drop p).take DEFAULT_PAGE_SIZE, none) := Prod.ext hpage hnext
      simp only [iterPagesAux, hsplit]
      have hlen' : (all.drop p).length ≤ DEFAULT_PAGE_SIZE := by
        simp only [List.length_drop]
        omega
      rw [List.take_of_length_le hlen']

/-- Full cursor iteration of listPaged visits the registry snapshot exactly
once, in its iteration order. -/
theorem iterPaged_visits_all (key : α → String) (all : List α)
    (hnd : (all.map key).Nodup) :
    iterPagesAux (listPaged key all) none (all.length + 1) = all := by
  have := iterPaged_eq_drop key all hnd (all.length + 1) none 0 rfl
    (by simp only [DEFAULT_PAGE_SIZE]; omega)
  simpa using this

/-- The modelled Rust string order is total. -/
theorem charListLe_total : ∀ as bs, (charListLe as bs || charListLe bs as) = true := by
  intro as
  induction as with
  | nil => intro bs; simp [charListLe]
  | cons a as ih =>
    intro bs
    cases bs with
    | nil => simp [charListLe]
    | cons b bs =>
      simp only [charListLe]
      rcases Nat.lt_trichotomy a.toNat b.toNat with h | h | h
      · simp [h]
      · have h1 : ¬ a.toNat < b.toNat := by omega
        have h2 : ¬ b.toNat < a.toNat := by omega
        simp only [h1, h2, if_false, ite_false]
        simpa using ih bs
      · have h1 : ¬ a.toNat < b.toNat := by omega
        simp [h, h1]

/-- The modelled Rust string order is transitive. -/
theorem charListLe_trans :
    ∀ as bs cs, charListLe as bs = true → charListLe bs cs = true →
      charListLe as cs = true := by
  intro as
  induction as with
  | nil => intro bs cs _ _; simp [charListLe]
  | cons a as ih =>
    intro bs cs hab hbc
    cases bs with
    | nil => simp [charListLe] at hab
    | cons b bs =>
      cases cs with
      | nil => simp [charListLe] at hbc
      | cons c cs =>
        simp only [charListLe] at hab hbc ⊢
        by_cases h1 : a.toNat < b.toNat
        · by_cases h2 : b.toNat < c.toNat
          · rw [if_pos (by omega : a.toNat < c.toNat)]
          · by_cases h2' : c.toNat < b.toNat
            · rw [if_neg h2, if_pos h2'] at hbc
              simp at hbc
            · rw [if_pos (by omega : a.toNat < c.toNat)]
        · by_cases h1' : b.toNat < a.toNat
          · rw [if_neg h1, if_pos h1'] at hab
            simp at hab
          · by_cases h2 : b.toNat < c.toNat
            · rw [if_pos (by omega : a.toNat < c.toNat)]
            · by_cases h2' : c.toNat < b.toNat
              · rw [if_neg h2, if_pos h2'] at hbc
                simp at hbc
              · rw [if_neg h1, if_neg h1'] at hab
                rw [if_neg h2, if_neg h2'] at hbc
                rw [if_neg (by omega : ¬ a.toNat < c.toNat),
                  if_neg (by omega : ¬ c.toNat < a.toNat)]
                exact ih bs cs hab hbc

/-- The skip_while cursor scan of list_prompts lands on the entry holding
the cursor name when the names are distinct. -/
theorem dropWhile_name_getElem (l : List Prompt) :
    ∀ (j : Nat) (hj : j < l.length), (l.map (fun p => p.name)).Nodup →
      l.dropWhile (fun p => !(p.name == l[j].name)) = l.drop j := by
  induction l with
  | nil => intro j hj _; simp at hj
  | cons a as ih =>
    intro j hj hnd
    cases j with
    | zero => simp [List.dropWhile]
    | succ j =>
      have hj' : j < as.length := by simpa using hj
      have hmem : as[j].name ∈ as.map (fun p => p.name) :=
        List.mem_map_of_mem _ (as.getElem_mem hj')
      have hnd' : (as.map (fun p => p.name)).Nodup :=
        (List.nodup_cons.mp (by simpa using hnd)).2
      have hne : a.name ≠ as[j].name := by
        intro h
        exact (List.nodup_cons.mp (by simpa using hnd)).1 (h ▸ hmem)
      have hgl : (a :: as)[j+1] = as[j] := rfl
      rw [hgl]
      have hpred : (!(a.name == as[j].name)) = true := by simp [hne]
      simp only [List.dropWhile, hpred]
      exact ih j hj' hnd'

/-- Name-wise sortedness of the prompt sort, prompt-level form. -/
theorem sort_by_name_pairwise_names (ps : List Prompt) :
    (sort_by_name ps).Pairwise (fun a b => strLe a.name b.name = true) := by
  have htrans : ∀ a b c : Prompt, strLe a.name b.name = true → strLe b.name c.name = true →
      strLe a.name c.name = true := fun a b c hab hbc => charListLe_trans _ _ _ hab hbc
  have htotal : ∀ a b : Prompt, (strLe a.name b.name || strLe b.name a.name) = true :=
    fun a b => charListLe_total _ _
  exact @List.sorted_mergeSort Prompt (fun a b => strLe a.name b.name) htrans htotal ps

/-- The prompt sort produces a list whose names are pairwise ordered. -/
theorem sort_by_name_pairwise (ps : List Prompt) :
    ((sort_by_name ps).map (fun q => q.name)).Pairwise (fun a b => strLe a b = true) :=
  List.pairwise_map.mpr (sort_by_name_pairwise_names ps)

/-- Only the empty character list compares at or below the empty list. -/
theorem charListLe_nil_right (as : List Char) (h : charListLe as [] = true) : as = [] := by
  cases as with
  | nil => rfl
  | cons a as => simp [charListLe] at h

/-- Only the empty string sorts at or below the empty string. -/
theorem strLe_empty_right (x : String) (h : strLe x "" = true) : x = "" := by
  have hd : x.data = [] := charListLe_nil_right x.data h
  cases x
  simp at hd
  rw [hd]

/-- In the sorted prompt list with distinct names, the entry at a positive
index is never named by the empty string: the empty name can only sort to
index 0.  Hence a page-boundary cursor (index 49 or later of the sorted
order) is never the empty string. -/
theorem sorted_prompt_name_ne_empty (ps : List Prompt) (j : Nat)
    (hj : j < (sort_by_name ps).length) (hj1 : 0 < j)
    (hnd : ((sort_by_name ps).map (fun q => q.name)).Nodup) :
    (sort_by_name ps)[j].name ≠ "" := by
  intro hbad
  have hpw := sort_by_name_pairwise ps
  have hndpw : ((sort_by_name ps).map (fun q => q.name)).Pairwise
      (fun a b : String => a ≠ b) := hnd
  have h0 : 0 < ((sort_by_name ps).map (fun q => q.name)).length := by
    simp only [List.length_map]
    omega
  have hj' : j < ((sort_by_name ps).map (fun q => q.name)).length := by
    simp only [List.length_map]
    omega
  have hrel := List.pairwise_iff_getElem.mp hpw 0 j h0 hj' hj1
  have hne0j := List.pairwise_iff_getElem.mp hndpw 0 j h0 hj' hj1
  simp only [List.getElem_map] at hrel hne0j
  rw [hbad] at hrel hne0j
  exact hne0j (by rw [strLe_empty_right _ hrel])

/-- Cursor iteration of list_prompts from a cursor that resolves to the
suffix at p yields exactly that suffix, given distinct names (the empty
cursor corner cannot arise: a returned cursor sits at index 49 or later of
the sorted order, where the name is never empty). -/
theorem listPrompts_iter_eq_drop (ps : List Prompt)
    (hnd : ((sort_by_name ps).map (fun q => q.name)).Nodup) :
    ∀ (fuel : Nat) (cursor : Option String) (p : Nat),
      cursorRest (sort_by_name ps) cursor = (sort_by_name ps).drop p →
      (sort_by_name ps).length - p ≤ DEFAULT_PAGE_SIZE * fuel →
      iterPagesAux (list_prompts ps) cursor fuel = (sort_by_name ps).drop p := by
  have hD : DEFAULT_PAGE_SIZE = 50 := rfl
  intro fuel
  induction fuel with
  | zero =>
    intro cursor p _ hlen
    have hp : (sort_by_name ps).length ≤ p := by simp only [hD] at hlen; omega
    simp [iterPagesAux, List.drop_eq_nil_of_le hp]
  | succ fuel ih =>
    intro cursor p hcur hlen
    by_cases hbig : ((sort_by_name ps).drop p).length > DEFAULT_PAGE_SIZE
    · -- more than a page remains
      have hplen : (sort_by_name ps).length - p > DEFAULT_PAGE_SIZE := by
        simpa [List.length_drop] using hbig
      have hidx : p + (DEFAULT_PAGE_SIZE - 1) < (sort_by_name ps).length := by
        simp only [hD] at hplen ⊢; omega
      have hgetd : ((sort_by_name ps).drop p)[DEFAULT_PAGE_SIZE - 1]? =
          some (sort_by_name ps)[p + (DEFAULT_PAGE_SIZE - 1)] := by
        rw [List.getElem?_drop, List.getElem?_eq_getElem hidx]
      have hstep : list_prompts ps cursor =
          (((sort_by_name ps).drop p).take DEFAULT_PAGE_SIZE,
            some (sort_by_name ps)[p + (DEFAULT_PAGE_SIZE - 1)].name) := by
        simp only [list_prompts, hcur]
        rw [if_pos hbig, hgetd]
      have hnoempty : (sort_by_name ps)[p + (DEFAULT_PAGE_SIZE - 1)].name ≠ "" :=
        sorted_prompt_name_ne_empty ps _ hidx (by simp only [hD]; omega) hnd
      have hcur' : cursorRest (sort_by_name ps)
          (some (sort_by_name ps)[p + (DEFAULT_PAGE_SIZE - 1)].name) =
          (sort_by_name ps).drop (p + DEFAULT_PAGE_SIZE) := by
        simp only [cursorRest]
        rw [if_neg hnoempty]
        rw [dropWhile_name_getElem (sort_by_name ps) (p + (DEFAULT_PAGE_SIZE - 1)) hidx hnd]
        rw [List.drop_drop]
        have harith : p + (DEFAULT_PAGE_SIZE - 1) + 1 = p + DEFAULT_PAGE_SIZE := by
          simp only [hD]
        rw [harith]
      have hih := ih (some (sort_by_name ps)[p + (DEFAULT_PAGE_SIZE - 1)].name)
        (p + DEFAULT_PAGE_SIZE) hcur' (by simp only [hD] at hlen ⊢; omega)
      simp only [iterPagesAux, hstep]
      rw [hih]
      have hdd : (sort_by_name ps).drop (p + DEFAULT_PAGE_SIZE) =
          ((sort_by_name ps).drop p).drop DEFAULT_PAGE_SIZE := by rw [List.drop_drop]
      rw [hdd, List.take_append_drop]
    · -- the rest fits on one page
      have hstep : list_prompts ps cursor = ((sort_by_name ps).drop p, none) := by
        simp only [list_prompts, hcur]
        rw [if_neg hbig]
      simp only [iterPagesAux, hstep]

/-- Full cursor iteration of prompts/list returns the name-sorted registry,
given distinct names. -/
theorem iter_prompts_eq_sort (ps : List Prompt)
    (hnd : (ps.map (fun q => q.name)).Nodup) :
    iter_prompts ps = sort_by_name ps := by
  have hperm : (sort_by_name ps).Perm ps := List.mergeSort_perm ps _
  have hpermmap : ((sort_by_name ps).map (fun q => q.name)).Perm
      (ps.map (fun q => q.name)) := hperm.map _
  have hnd' : ((sort_by_name ps).map (fun q => q.name)).Nodup :=
    hpermmap.nodup_iff.mpr hnd
  have hlen : (sort_by_name ps).length = ps.length := hperm.length_eq
  have := listPrompts_iter_eq_drop ps hnd' (ps.length + 1) none 0 rfl
    (by simp only [DEFAULT_PAGE_SIZE]; omega)
  simpa [iter_prompts] using this

/-- C2 (amended): cursor iteration over resources and templates visits every
entry exactly once in registry (hash-map) iteration order, which is not
sorted; prompts/list alone sorts, and its cursor iteration visits every
entry exactly once, the concatenated pages being in lexicographic name
order. -/
theorem c2_cursor_iteration (rs : List Resource) (ts : List ResourceTemplate)
    (ps : List Prompt)
    (hrs : (rs.map (fun r => r.uri)).Nodup)
    (hts : (ts.map (fun t => t.uri_template)).Nodup)
    (hps : (ps.map (fun q => q.name)).Nodup) :
    iter_resources rs = rs ∧ iter_templates ts = ts ∧
    iter_prompts ps = sort_by_name ps ∧ (iter_prompts ps).Perm ps ∧
    ((iter_prompts ps).map (fun q => q.name)).Pairwise (fun a b => strLe a b = true) := by
  have h1 : iter_resources rs = rs := iterPaged_visits_all _ rs hrs
  have h2 : iter_templates ts = ts := iterPaged_visits_all _ ts hts
  have h3 : iter_prompts ps = sort_by_name ps := iter_prompts_eq_sort ps hps
  refine ⟨h1, h2, h3, ?_, ?_⟩
  · rw [h3]; exact List.mergeSort_perm ps _
  · rw [h3]; exact sort_by_name_pairwise ps

/-- C2 counterexample: on a resource registry whose iteration order is
[uri "b", uri "a"], cursor iteration returns the pages concatenated as
["b", "a"], which is not in lexicographic key order, refuting the claim
that every registry is listed in lexicographic key order. -/
theorem c2_counterexample :
    iter_resources [resource_b, resource_a] = [resource_b, resource_a] ∧
    (iter_resources [resource_b, resource_a]).map (fun r => r.uri) = ["b", "a"] ∧
    ¬ ((iter_resources [resource_b, resource_a]).map (fun r => r.uri)).Pairwise
        (fun x y => strLe x y = true) := by
  refine ⟨rfl, rfl, ?_⟩
  intro h
  rw [show (iter_resources [resource_b, resource_a]).map (fun r => r.uri) = ["b", "a"]
    from rfl] at h
  have := List.rel_of_pairwise_cons h (List.mem_singleton.mpr rfl)
  exact absurd this (by decide)

/-- Witness for C2: the amended theorem applied to concrete registries. -/
theorem c2_cursor_iteration_witness :
    (([resource_a, resource_b].map (fun r => r.uri)).Nodup ∧
      (([] : List ResourceTemplate).map (fun t => t.uri_template)).Nodup ∧
      (([⟨"greet", none, none, none⟩] : List Prompt).map (fun q => q.name)).Nodup) ∧
    iter_resources [resource_a, resource_b] = [resource_a, resource_b] := by
  have hrs : ([resource_a, resource_b].map (fun r => r.uri)).Nodup := by decide
  have hts : (([] : List ResourceTemplate).map (fun t => t.uri_template)).Nodup := by decide
  have hps : (([⟨"greet", none, none, none⟩] : List Prompt).map (fun q => q.name)).Nodup := by
    decide
  exact ⟨⟨hrs, hts, hps⟩,
    (c2_cursor_iteration [resource_a, resource_b] [] [⟨"greet", none, none, none⟩]
      hrs hts hps).1⟩

/-- A listPaged page holds at most 50 entries. -/
theorem listPaged_page_le (key : α → String) (all : List α) (c : Option String) :
    (listPaged key all c).1.length ≤ DEFAULT_PAGE_SIZE := by
  simp only [listPaged, List.length_take]
  omega

/-- When listPaged returns a cursor, the page is full (50 entries) and the
cursor is the key of its last entry. -/
theorem listPaged_next_cursor (key : α → String) (all : List α) (c : Option String)
    (k : String) (hk : (listPaged key all c).2 = some k) :
    (listPaged key all c).1.length = DEFAULT_PAGE_SIZE ∧
    ((listPaged key all c).1.getLast?).map key = some k := by
  have hD : DEFAULT_PAGE_SIZE = 50 := rfl
  simp only [listPaged] at hk ⊢
  by_cases h : min (startIndex key all c + DEFAULT_PAGE_SIZE) all.length < all.length
  · rw [if_pos h] at hk
    have hlt : startIndex key all c + DEFAULT_PAGE_SIZE < all.length := by omega
    have hmin : min (startIndex key all c + DEFAULT_PAGE_SIZE) all.length =
        startIndex key all c + DEFAULT_PAGE_SIZE := by omega
    rw [hmin] at hk
    have hidx : startIndex key all c + DEFAULT_PAGE_SIZE - 1 < all.length := by omega
    rw [List.getElem?_eq_getElem hidx] at hk
    have hkval : k = key all[startIndex key all c + DEFAULT_PAGE_SIZE - 1] := by
      have := hk
      simp only [Option.map_some] at this
      exact (Option.some.inj this).symm
    have hlen : ((all.drop (startIndex key all c)).take DEFAULT_PAGE_SIZE).length =
        DEFAULT_PAGE_SIZE := by
      simp only [List.length_take, List.length_drop]
      omega
    refine ⟨hlen, ?_⟩
    rw [List.getLast?_eq_getElem?, hlen]
    rw [List.getElem?_take]
    rw [if_pos (by omega : DEFAULT_PAGE_SIZE - 1 < DEFAULT_PAGE_SIZE)]
    rw [List.getElem?_drop]
    rw [show startIndex key all c + (DEFAULT_PAGE_SIZE - 1) =
      startIndex key all c + DEFAULT_PAGE_SIZE - 1 from by omega]
    rw [List.getElem?_eq_getElem hidx]
    rw [hkval]
    rfl
  · rw [if_neg h] at hk
    exact absurd hk (by simp)

/-- The page returned by list_prompts is the cursor remainder, truncated to
50 entries when longer. -/
theorem list_prompts_fst (ps : List Prompt) (c : Option String) :
    (list_prompts ps c).1 =
      if (cursorRest (sort_by_name ps) c).length > DEFAULT_PAGE_SIZE then
        (cursorRest (sort_by_name ps) c).take DEFAULT_PAGE_SIZE
      else cursorRest (sort_by_name ps) c := by
  simp only [list_prompts]
  by_cases h : (cursorRest (sort_by_name ps) c).length > DEFAULT_PAGE_SIZE
  · rw [if_pos h, if_pos h]
    cases hq : (cursorRest (sort_by_name ps) c)[DEFAULT_PAGE_SIZE - 1]? <;> rfl
  · rw [if_neg h, if_neg h]

/-- A list_prompts page holds at most 50 entries. -/
theorem list_prompts_page_le (ps : List Prompt) (c : Option String) :
    (list_prompts ps c).1.length ≤ DEFAULT_PAGE_SIZE := by
  rw [list_prompts_fst]
  by_cases h : (cursorRest (sort_by_name ps) c).length > DEFAULT_PAGE_SIZE
  · rw [if_pos h]
    simp only [List.length_take]
    omega
  · rw [if_neg h]
    omega

/-- When list_prompts returns a cursor, the page is full (50 entries) and
the cursor is the name of its last entry. -/
theorem list_prompts_next_cursor (ps : List Prompt) (c : Option String)
    (k : String) (hk : (list_prompts ps c).2 = some k) :
    (list_prompts ps c).1.length = DEFAULT_PAGE_SIZE ∧
    ((list_prompts ps c).1.getLast?).map (fun q => q.name) = some k := by
  have hD : DEFAULT_PAGE_SIZE = 50 := rfl
  simp only [list_prompts] at hk ⊢
  by_cases h : (cursorRest (sort_by_name ps) c).length > DEFAULT_PAGE_SIZE
  · rw [if_pos h] at hk ⊢
    cases hq : (cursorRest (sort_by_name ps) c)[DEFAULT_PAGE_SIZE - 1]? with
    | none =>
      rw [hq] at hk
      exact absurd hk (by simp)
    | some q =>
      rw [hq] at hk
      simp only at hk
      have hkval : k = q.name := (Option.some.inj hk).symm
      have hlen : ((cursorRest (sort_by_name ps) c).take DEFAULT_PAGE_SIZE).length =
          DEFAULT_PAGE_SIZE := by
        simp only [List.length_take]
        omega
      refine ⟨hlen, ?_⟩
      rw [List.getLast?_eq_getElem?, hlen]
      rw [List.getElem?_take]
      rw [if_pos (by omega : DEFAULT_PAGE_SIZE - 1 < DEFAULT_PAGE_SIZE)]
      rw [hq]
      simp [hkval]
  · rw [if_neg h] at hk
    exact absurd hk (by simp)

/-- Rust Iterator::position only returns in-range indices. -/
theorem position_lt (p : α → Bool) :
    ∀ (l : List α) (i : Nat), position p l = some i → i < l.length := by
  intro l
  induction l with
  | nil => intro i h; simp [position] at h
  | cons a as ih =>
    intro i h
    simp only [position] at h
    by_cases hp : p a
    · rw [if_pos hp] at h
      have h0 : i = 0 := (Option.some.inj h).symm
      simp [h0]
    · rw [if_neg hp] at h
      cases hq : position p as with
      | none => rw [hq] at h; simp at h
      | some j =>
        rw [hq] at h
        have hij : j + 1 = i := by simpa using h
        have := ih j hq
        simp only [List.length_cons]
        omega

/-- The cursor start position never exceeds the registry length. -/
theorem startIndex_le_length (key : α → String) (all : List α) (c : Option String) :
    startIndex key all c ≤ all.length := by
  cases c with
  | none => simp [startIndex]
  | some cv =>
    simp only [startIndex]
    cases hp : position (fun x => key x == cv) all with
    | none => simp
    | some p =>
      have := position_lt _ all p hp
      show p + 1 ≤ all.length
      omega

/-- The nextCursor of listPaged is absent exactly when the returned page is
the whole remainder of the registry from the cursor position on. -/
theorem listPaged_next_none_iff (key : α → String) (all : List α) (c : Option String) :
    (listPaged key all c).2 = none ↔
      (listPaged key all c).1 = all.drop (startIndex key all c) := by
  have hD : DEFAULT_PAGE_SIZE = 50 := rfl
  have hle := startIndex_le_length key all c
  simp only [listPaged]
  by_cases h : min (startIndex key all c + DEFAULT_PAGE_SIZE) all.length < all.length
  · rw [if_pos h]
    have hlt : startIndex key all c + DEFAULT_PAGE_SIZE < all.length := by omega
    constructor
    · intro hk
      exfalso
      have hidx : min (startIndex key all c + DEFAULT_PAGE_SIZE) all.length - 1 <
          all.length := by omega
      rw [List.getElem?_eq_getElem hidx] at hk
      simp at hk
    · intro hp
      exfalso
      have hlen := congrArg List.length hp
      rw [List.length_take, List.length_drop] at hlen
      omega
  · rw [if_neg h]
    have htake : (all.drop (startIndex key all c)).take DEFAULT_PAGE_SIZE =
        all.drop (startIndex key all c) := by
      apply List.take_of_length_le
      rw [List.length_drop]
      omega
    simp [htake]

/-- The nextCursor computed by list_prompts, in closed form. -/
theorem list_prompts_snd (ps : List Prompt) (c : Option String) :
    (list_prompts ps c).2 =
      if (cursorRest (sort_by_name ps) c).length > DEFAULT_PAGE_SIZE then
        ((cursorRest (sort_by_name ps) c)[DEFAULT_PAGE_SIZE - 1]?).map (fun q => q.name)
      else none := by
  simp only [list_prompts]
  by_cases h : (cursorRest (sort_by_name ps) c).length > DEFAULT_PAGE_SIZE
  · rw [if_pos h, if_pos h]
    cases hq : (cursorRest (sort_by_name ps) c)[DEFAULT_PAGE_SIZE - 1]? <;> rfl
  · rw [if_neg h, if_neg h]

/-- The nextCursor of list_prompts is absent exactly when the returned page
is the whole remainder after the cursor. -/
theorem list_prompts_next_none_iff (ps : List Prompt) (c : Option String) :
    (list_prompts ps c).2 = none ↔
      (list_prompts ps c).1 = cursorRest (sort_by_name ps) c := by
  have hD : DEFAULT_PAGE_SIZE = 50 := rfl
  rw [list_prompts_fst, list_prompts_snd]
  by_cases h : (cursorRest (sort_by_name ps) c).length > DEFAULT_PAGE_SIZE
  · rw [if_pos h, if_pos h]
    have hidx : DEFAULT_PAGE_SIZE - 1 < (cursorRest (sort_by_name ps) c).length := by
      omega
    rw [List.getElem?_eq_getElem hidx]
    constructor
    · intro hk
      simp at hk
    · intro hp
      exfalso
      have hlen := congrArg List.length hp
      rw [List.length_take] at hlen
      omega
  · rw [if_neg h, if_neg h]
    simp

/-- Every list_prompts page is a sublist of the sorted registry. -/
theorem list_prompts_page_sublist (ps : List Prompt) (c : Option String) :
    ((list_prompts ps c).1).Sublist (sort_by_name ps) := by
  have hrest : (cursorRest (sort_by_name ps) c).Sublist (sort_by_name ps) := by
    cases c with
    | none => exact List.Sublist.refl _
    | some cv =>
      simp only [cursorRest]
      by_cases he : cv = ""
      · rw [if_pos he]
      · rw [if_neg he]
        exact (List.drop_sublist 1 _).trans (List.dropWhile_sublist _)
  rw [list_prompts_fst]
  by_cases h : (cursorRest (sort_by_name ps) c).length > DEFAULT_PAGE_SIZE
  · rw [if_pos h]
    exact (List.take_sublist _ _).trans hrest
  · rw [if_neg h]
    exact hrest

/-- Every list_prompts page is in lexicographic name order. -/
theorem list_prompts_page_pairwise (ps : List Prompt) (c : Option String) :
    (((list_prompts ps c).1).map (fun q => q.name)).Pairwise
      (fun a b => strLe a b = true) :=
  List.pairwise_map.mpr
    (List.Pairwise.sublist (list_prompts_page_sublist ps c)
      (sort_by_name_pairwise_names ps))

/-- C3 (amended): tools/list performs no pagination at all — it replies with
every registered tool in registry iteration order and always an empty
nextCursor.  resources/list, resources/templates/list and prompts/list
return at most 50 items per page; whenever they return a nextCursor, the
page is full (exactly 50 items) and the cursor equals the last returned
entry's key; and the nextCursor is absent (empty string on the wire)
exactly when the page is the whole remainder of the registry past the
cursor.  prompts/list pages are additionally in lexicographic name
order. -/
theorem c3_list_shape (s : Server) (id : Json) (params : Option Json)
    (rs : List Resource) (ts : List ResourceTemplate) (ps : List Prompt)
    (c : Option String)
    (hready : s.state = .Ready) :
    (handle_tools_list s id params = .mkResponse id (.obj [
        ("tools", .arr ((list_tools (s.tools.map (fun kv => kv.2.1))).map encodeTool)),
        ("nextCursor", .str "")]) ∧
      list_tools (s.tools.map (fun kv => kv.2.1)) = s.tools.map (fun kv => kv.2.1)) ∧
    ((list_resources rs c).1.length ≤ 50 ∧
      (∀ k, (list_resources rs c).2 = some k → (list_resources rs c).1.length = 50 ∧
        ((list_resources rs c).1.getLast?).map (fun r => r.uri) = some k) ∧
      ((list_resources rs c).2 = none ↔
        (list_resources rs c).1 = rs.drop (startIndex (fun r => r.uri) rs c))) ∧
    ((list_templates ts c).1.length ≤ 50 ∧
      (∀ k, (list_templates ts c).2 = some k → (list_templates ts c).1.length = 50 ∧
        ((list_templates ts c).1.getLast?).map (fun t => t.uri_template) = some k) ∧
      ((list_templates ts c).2 = none ↔
        (list_templates ts c).1 = ts.drop (startIndex (fun t => t.uri_template) ts c))) ∧
    ((list_prompts ps c).1.length ≤ 50 ∧
      (∀ k, (list_prompts ps c).2 = some k → (list_prompts ps c).1.length = 50 ∧
        ((list_prompts ps c).1.getLast?).map (fun q => q.name) = some k) ∧
      ((list_prompts ps c).2 = none ↔
        (list_prompts ps c).1 = cursorRest (sort_by_name ps) c) ∧
      (((list_prompts ps c).1).map (fun q => q.name)).Pairwise
        (fun a b => strLe a b = true)) := by
  refine ⟨⟨?_, rfl⟩,
    ⟨listPaged_page_le _ rs c, fun k hk => listPaged_next_cursor _ rs c k hk,
      listPaged_next_none_iff _ rs c⟩,
    ⟨listPaged_page_le _ ts c, fun k hk => listPaged_next_cursor _ ts c k hk,
      listPaged_next_none_iff _ ts c⟩,
    ⟨list_prompts_page_le ps c, fun k hk => list_prompts_next_cursor ps c k hk,
      list_prompts_next_none_iff ps c, list_prompts_page_pairwise ps c⟩⟩
  simp [handle_tools_list, hready]

/-- C3 counterexample: with 51 registered tools, tools/list replies with all
51 tools (not the first 50) and an empty nextCursor, refuting the claim that
every list method returns at most 50 items and a non-empty cursor when more
remain. -/
theorem c3_counterexample :
    jsonArrayLen (resultField (handle_tools_list server51 (.num 1) none) "tools") =
      some 51 ∧
    resultField (handle_tools_list server51 (.num 1) none) "nextCursor" =
      some (.str "") ∧
    ¬ (51 ≤ 50) := by
  exact ⟨rfl, rfl, by decide⟩

/-- Witness for C3: the amended theorem applied to the 51-tool server. -/
theorem c3_list_shape_witness :
    ServerState.Ready = ServerState.Ready ∧
    handle_tools_list server51 (.num 1) none = .mkResponse (.num 1) (.obj [
        ("tools", .arr ((list_tools (server51.tools.map (fun kv => kv.2.1))).map encodeTool)),
        ("nextCursor", .str "")]) := by
  exact ⟨rfl, (c3_list_shape server51 (.num 1) none [] [] [] none rfl).1.1⟩

/-- C1: the claim that every non-initialize request is answered with error
-32003 while the state is not Ready is violated by the code:
completion/complete carries no Ready gate, so a server still in Created
state answers it with a success response (an empty completion), leaving the
state unchanged.  All other dispatched request handlers do carry the gate,
so the missing check is a code bug against the spec invariant. -/
theorem c1_completion_bypasses_ready_gate :
    sampleServer.state = ServerState.Created ∧
    (handle_message sampleServer c1Request).1 =
      some (.mkResponse (.num 1) (encodeCompleteResponse ⟨[], some 0, false⟩)) ∧
    (handle_message sampleServer c1Request).1 ≠ some (notInitializedReply (.num 1)) ∧
    (handle_message sampleServer c1Request).2.state = ServerState.Created := by
  refine ⟨rfl, rfl, ?_, rfl⟩
  intro h
  rw [show (handle_message sampleServer c1Request).1 =
    some (JsonRpcMessage.response "2.0" (.num 1)
      (some (encodeCompleteResponse ⟨[], some 0, false⟩)) none) from rfl] at h
  simp [notInitializedReply, JsonRpcMessage.mkError] at h

/-- C4 (amended): a second initialize on an already Ready server is handled
exactly like a first one: with parseable parameters carrying a supported
protocolVersion it replies with the InitializeResult (a success, not -32600
nor -32003) and moves the state back to Initializing. -/
theorem c4_initialize_reprocessed (s : Server) (id : Json) (pj : Json) (p : InitializeParams)
    (hs : s.state = .Ready)
    (hp : parseInitializeParams pj = some p)
    (hv : is_supported_version p.protocol_version = true) :
    handle_initialize_request s id (some pj) =
      (.mkResponse id (encodeInitializeResult s.get_server_info),
        { s with state := .Initializing }) := by
  simp [handle_initialize_request, hp, hv]

/-- C4 counterexample: a Ready server answering a well-formed second
initialize replies with a success result and changes state from Ready to
Initializing, refuting both halves of the claim (error reply, unchanged
state). -/
theorem c4_counterexample :
    serverReady.state = ServerState.Ready ∧
    (handle_message serverReady initRequest2).1 =
      some (.mkResponse (.num 2) (encodeInitializeResult ⟨"s", "1"⟩)) ∧
    (handle_message serverReady initRequest2).2.state = ServerState.Initializing ∧
    ServerState.Initializing ≠ ServerState.Ready := by
  exact ⟨rfl, rfl, rfl, by decide⟩

/-- Witness for C4: the amended theorem applied to the concrete Ready server
and concrete initialize parameters. -/
theorem c4_initialize_reprocessed_witness :
    serverReady.state = ServerState.Ready ∧
    parseInitializeParams initParamsJson =
      some ⟨"2025-06-18", ⟨none, none, none⟩, ⟨"c", "1"⟩⟩ ∧
    is_supported_version "2025-06-18" = true ∧
    handle_initialize_request serverReady (.num 2) (some initParamsJson) =
      (.mkResponse (.num 2) (encodeInitializeResult serverReady.get_server_info),
        { serverReady with state := .Initializing }) := by
  refine ⟨rfl, rfl, rfl, ?_⟩
  exact c4_initialize_reprocessed serverReady (.num 2) initParamsJson
    ⟨"2025-06-18", ⟨none, none, none⟩, ⟨"c", "1"⟩⟩ rfl rfl rfl

/-- Map insert: the inserted key maps to the new value. -/
theorem lookup_insertKey_self (k : String) (v : α) (l : List (String × α)) :
    (insertKey k v l).lookup k = some v := by
  induction l with
  | nil => simp [insertKey, List.lookup]
  | cons kv rest ih =>
    obtain ⟨k', v'⟩ := kv
    by_cases h : k' == k
    · simp only [insertKey, h, if_true, ite_true, List.lookup, BEq.refl]
    · simp only [insertKey, h, Bool.false_eq_true, ite_false, List.lookup]
      have hne : k' ≠ k := fun hh => h (beq_iff_eq.mpr hh)
      have h' : (k == k') = false := beq_eq_false_iff_ne.mpr (fun hh => hne hh.symm)
      rw [h']
      exact ih

/-- Map insert: other keys are untouched. -/
theorem lookup_insertKey_ne (k k' : String) (v : α) (l : List (String × α))
    (h : k' ≠ k) :
    (insertKey k v l).lookup k' = l.lookup k' := by
  induction l with
  | nil =>
    simp only [insertKey, List.lookup]
    rw [show (k' == k) = false by simpa using h]
  | cons kv rest ih =>
    obtain ⟨k₀, v₀⟩ := kv
    by_cases h0 : k₀ == k
    · have hk0 : k₀ = k := by simpa using h0
      simp only [insertKey, h0, ite_true, List.lookup]
      rw [show (k' == k) = false by simpa using h,
        show (k' == k₀) = false by simp [hk0]; exact h]
    · simp only [insertKey, h0, Bool.false_eq_true, ite_false, List.lookup]
      by_cases hk : k' == k₀
      · rw [hk]
      · rw [show (k' == k₀) = false by simpa using hk]
        exact ih

/-- C5 (amended): in every registry, registering an entry whose key already
exists replaces the previous entry (lookups at the key see the new entry,
other keys are untouched); but only prompt registration emits its update
signal (carried to notifications/prompts/list_changed) — tool and resource
registration emit no signal at all, and update_resource emits the per-uri
resources/updated signal rather than a listChanged one. -/
theorem c5_registration (tools : List (String × Tool × ToolHandler)) (t : Tool)
    (h : ToolHandler)
    (resources : List (String × Resource × ResourceContentProvider)) (r : Resource)
    (pr : ResourceContentProvider)
    (prompts : List (String × Prompt)) (handlers : List (String × PromptHandler))
    (p : Prompt) (ph : PromptHandler) :
    ((register_tool tools t h).1.lookup t.name = some (t, h) ∧
      (∀ k, k ≠ t.name → (register_tool tools t h).1.lookup k = tools.lookup k) ∧
      (register_tool tools t h).2 = []) ∧
    ((register_resource resources r pr).1.lookup r.uri = some (r, pr) ∧
      (register_resource resources r pr).2 = []) ∧
    ((update_resource resources r pr).1.lookup r.uri = some (r, pr) ∧
      (update_resource resources r pr).2 = [.resource_update r.uri]) ∧
    ((register_prompt prompts handlers p ph).1.1.lookup p.name = some p ∧
      (register_prompt prompts handlers p ph).1.2.lookup p.name = some ph ∧
      (register_prompt prompts handlers p ph).2 = [.prompt_update]) := by
  refine ⟨⟨lookup_insertKey_self _ _ _, ?_, rfl⟩,
    ⟨lookup_insertKey_self _ _ _, rfl⟩,
    ⟨lookup_insertKey_self _ _ _, rfl⟩,
    ⟨lookup_insertKey_self _ _ _, lookup_insertKey_self _ _ _, rfl⟩⟩
  intro k hk
  exact lookup_insertKey_ne _ _ _ _ hk

/-- C5 counterexample: registering a tool and registering a resource each
emit no signal, refuting the claim that every registration triggers the
corresponding listChanged notification. -/
theorem c5_counterexample :
    (register_tool [] sampleTool sampleToolHandler).2 = [] ∧
    (register_resource [] resource_a sampleResourceProvider).2 = [] := ⟨rfl, rfl⟩

/-- Witness for C5: the amended theorem applied to concrete registries. -/
theorem c5_registration_witness :
    ("other" ≠ sampleTool.name) ∧
    (register_tool [] sampleTool sampleToolHandler).1.lookup "other" =
      List.lookup "other" ([] : List (String × Tool × ToolHandler)) := by
  refine ⟨by decide, ?_⟩
  exact (c5_registration [] sampleTool sampleToolHandler [] resource_a
    sampleResourceProvider [] [] samplePrompt samplePromptHandler).1.2.1 "other" (by decide)

/-- C6: on an inbound sampling/createMessage, the client replies -32004 when
the sampling capability is not enabled (before even parsing); with the
capability enabled and parseable parameters it replies -32005 when no
callback is registered; otherwise the callback runs, a callback success is
returned as a result response, and a callback error as -32006. -/
theorem c6_sampling_create_message
    (cb : Option (CreateMessageParams → Except String CreateMessageResult))
    (id : Json) (pj : Json) (p : CreateMessageParams)
    (hp : parseCreateMessageParams pj = some p) :
    (∀ params', handle_sampling_create_message false cb id params' =
        .mkError id (-32004) "Sampling is not enabled" none) ∧
    (handle_sampling_create_message true none id (some pj) =
        .mkError id (-32005) "No sampling callback registered" none) ∧
    (∀ f rr, cb = some f → f p = .ok rr →
        handle_sampling_create_message true cb id (some pj) =
          .mkResponse id (encodeCreateMessageResult rr)) ∧
    (∀ f e, cb = some f → f p = .error e →
        handle_sampling_create_message true cb id (some pj) =
          .mkError id (-32006) ("Sampling error: " ++ e) none) := by
  refine ⟨fun params' => rfl, ?_, ?_, ?_⟩
  · simp [handle_sampling_create_message, hp]
  · intro f rr hf hr
    simp [handle_sampling_create_message, hp, hf, hr]
  · intro f e hf he
    simp [handle_sampling_create_message, hp, hf, he]

/-- Witness for C6 at concrete parameters: the no-callback branch. -/
theorem c6_sampling_create_message_witness :
    parseCreateMessageParams samplingParamsJson = some sampleCreateMessageParams ∧
    handle_sampling_create_message true none (.num 3) (some samplingParamsJson) =
      .mkError (.num 3) (-32005) "No sampling callback registered" none := by
  refine ⟨rfl, ?_⟩
  exact (c6_sampling_create_message none (.num 3) samplingParamsJson
    sampleCreateMessageParams rfl).2.1

/-- If some required prompt argument is absent or blank in the supplied map,
the required-argument pass aborts with the message naming such an
argument. -/
theorem checkRequired_error (m : List (String × String)) :
    ∀ pargs : List PromptArgument,
      (∃ a ∈ pargs, a.required.getD false = true ∧
        (m.lookup a.name = none ∨ ∃ v, m.lookup a.name = some v ∧ trimIsEmpty v = true)) →
      ∃ a ∈ pargs, a.required.getD false = true ∧
        ((m.lookup a.name = none ∧
          checkRequired (some m) pargs = .error ("Missing required argument: " ++ a.name)) ∨
         (∃ v, m.lookup a.name = some v ∧ trimIsEmpty v = true ∧
          checkRequired (some m) pargs =
            .error ("Required argument cannot be empty: " ++ a.name))) := by
  intro pargs
  induction pargs with
  | nil =>
    rintro ⟨a, ha, _⟩
    exact absurd ha (List.not_mem_nil a)
  | cons a0 rest ih =>
    rintro ⟨a, ha, hreq, hcond⟩
    by_cases h0 : a0.required.getD false
    · cases hm : m.lookup a0.name with
      | none =>
        refine ⟨a0, List.mem_cons_self _ _, h0, Or.inl ⟨hm, ?_⟩⟩
        simp [checkRequired, h0, hm]
      | some v =>
        by_cases hv : trimIsEmpty v
        · refine ⟨a0, List.mem_cons_self _ _, h0, Or.inr ⟨v, hm, hv, ?_⟩⟩
          simp [checkRequired, h0, hm, hv]
        · have hcr : checkRequired (some m) (a0 :: rest) = checkRequired (some m) rest := by
            simp [checkRequired, h0, hm, hv]
          have hmem : a ∈ rest := by
            rcases List.mem_cons.mp ha with heq | hmem
            · subst heq
              rcases hcond with hnone | ⟨w, hw, hwv⟩
              · rw [hm] at hnone
                exact absurd hnone (by simp)
              · rw [hm] at hw
                have hwv' : w = v := (Option.some.inj hw).symm
                rw [hwv'] at hwv
                exact absurd hwv (by simp [hv])
            · exact hmem
          obtain ⟨b, hb, hbreq, hbc⟩ := ih ⟨a, hmem, hreq, hcond⟩
          exact ⟨b, List.mem_cons_of_mem _ hb, hbreq, by rwa [hcr]⟩
    · have hcr : checkRequired (some m) (a0 :: rest) = checkRequired (some m) rest := by
        simp [checkRequired, h0]
      have hmem : a ∈ rest := by
        rcases List.mem_cons.mp ha with heq | hmem
        · subst heq
          exact absurd hreq (by simpa using h0)
        · exact hmem
      obtain ⟨b, hb, hbreq, hbc⟩ := ih ⟨a, hmem, hreq, hcond⟩
      exact ⟨b, List.mem_cons_of_mem _ hb, hbreq, by rwa [hcr]⟩

/-- A required-argument failure propagates out of validate_arguments. -/
theorem validate_arguments_error (prompt : Prompt) (pargs : List PromptArgument)
    (m : List (String × String)) (e : String)
    (hargs : prompt.arguments = some pargs)
    (hcr : checkRequired (some m) pargs = .error e) :
    validate_arguments prompt (some m) = .error e := by
  simp [validate_arguments, hargs, hcr, Bind.bind, Except.bind]

/-- A validation failure propagates out of get_prompt. -/
theorem get_prompt_validate_error (prompts : List (String × Prompt))
    (handlers : List (String × PromptHandler)) (name : String) (prompt : Prompt)
    (m : List (String × String)) (e : String)
    (hlook : prompts.lookup name = some prompt)
    (hval : validate_arguments prompt (some m) = .error e) :
    get_prompt prompts handlers name (some m) = .error e := by
  simp [get_prompt, hlook, hval, Bind.bind, Except.bind]

/-- C8: a prompts/get for a registered prompt declaring a required argument
that is absent from the supplied arguments, or supplied as an
all-whitespace/empty string, is answered with error -32602 whose message
names the offending argument (Missing required argument / Required argument
cannot be empty, wrapped in the handler prefix "Prompt error: "). -/
theorem c8_prompt_required_args (s : Server) (id : Json) (pj : Json)
    (name : String) (m : List (String × String)) (prompt : Prompt)
    (pargs : List PromptArgument)
    (hs : s.state = .Ready)
    (hpj : parsePromptGetParams pj = some (name, some m))
    (hlook : s.prompts.lookup name = some prompt)
    (hargs : prompt.arguments = some pargs)
    (hviol : ∃ a ∈ pargs, a.required.getD false = true ∧
      (m.lookup a.name = none ∨ ∃ v, m.lookup a.name = some v ∧ trimIsEmpty v = true)) :
    ∃ a ∈ pargs, a.required.getD false = true ∧
      ((m.lookup a.name = none ∧
        handle_prompts_get s id (some pj) = .mkError id (-32602)
          ("Prompt error: " ++ ("Missing required argument: " ++ a.name))
          (some (.obj [("name", .str name)]))) ∨
       (∃ v, m.lookup a.name = some v ∧ trimIsEmpty v = true ∧
        handle_prompts_get s id (some pj) = .mkError id (-32602)
          ("Prompt error: " ++ ("Required argument cannot be empty: " ++ a.name))
          (some (.obj [("name", .str name)])))) := by
  obtain ⟨a, ha, hreq, hcond⟩ := checkRequired_error m pargs hviol
  refine ⟨a, ha, hreq, ?_⟩
  rcases hcond with ⟨hnone, hcr⟩ | ⟨v, hv, hve, hcr⟩
  · left
    refine ⟨hnone, ?_⟩
    have hval := validate_arguments_error prompt pargs m _ hargs hcr
    have hget := get_prompt_validate_error s.prompts s.prompt_handlers name prompt m _
      hlook hval
    simp [handle_prompts_get, hs, hpj, hget]
  · right
    refine ⟨v, hv, hve, ?_⟩
    have hval := validate_arguments_error prompt pargs m _ hargs hcr
    have hget := get_prompt_validate_error s.prompts s.prompt_handlers name prompt m _
      hlook hval
    simp [handle_prompts_get, hs, hpj, hget]

/-- Witness for C8: the sample prompt with its required argument missing. -/
theorem c8_prompt_required_args_witness :
    serverWithPrompt.state = ServerState.Ready ∧
    parsePromptGetParams promptGetParamsJson = some ("greet", some []) ∧
    serverWithPrompt.prompts.lookup "greet" = some samplePrompt ∧
    samplePrompt.arguments = some samplePromptArgs ∧
    (∃ a ∈ samplePromptArgs, a.required.getD false = true ∧
      (List.lookup a.name ([] : List (String × String)) = none ∨
        ∃ v, List.lookup a.name ([] : List (String × String)) = some v ∧
          trimIsEmpty v = true)) ∧
    (∃ a ∈ samplePromptArgs, a.required.getD false = true ∧
      ((List.lookup a.name ([] : List (String × String)) = none ∧
        handle_prompts_get serverWithPrompt (.num 4) (some promptGetParamsJson) =
          .mkError (.num 4) (-32602)
            ("Prompt error: " ++ ("Missing required argument: " ++ a.name))
            (some (.obj [("name", .str "greet")]))) ∨
       (∃ v, List.lookup a.name ([] : List (String × String)) = some v ∧
          trimIsEmpty v = true ∧
        handle_prompts_get serverWithPrompt (.num 4) (some promptGetParamsJson) =
          .mkError (.num 4) (-32602)
            ("Prompt error: " ++ ("Required argument cannot be empty: " ++ a.name))
            (some (.obj [("name", .str "greet")]))))) := by
  have hviol : ∃ a ∈ samplePromptArgs, a.required.getD false = true ∧
      (List.lookup a.name ([] : List (String × String)) = none ∨
        ∃ v, List.lookup a.name ([] : List (String × String)) = some v ∧
          trimIsEmpty v = true) :=
    ⟨⟨"who", none, some true⟩, List.mem_cons_self _ _, rfl, Or.inl rfl⟩
  exact ⟨rfl, rfl, rfl, rfl, hviol,
    c8_prompt_required_args serverWithPrompt (.num 4) promptGetParamsJson "greet" []
      samplePrompt samplePromptArgs rfl rfl rfl rfl hviol⟩

/-- C10: a tools/call in Ready state naming no registered tool is answered
with error -32603 (internal error, not -32601 nor -32602) whose message embeds
"Tool not found". -/
theorem c10_tool_not_found (s : Server) (id : Json) (name : String) (args : Json)
    (hs : s.state = .Ready) (hnf : s.tools.lookup name = none) :
    handle_tools_call s id (some (.obj [("name", .str name), ("arguments", args)])) =
      .mkError id (-32603) ("Tool execution error: " ++ ("Tool not found: " ++ name)) none ∧
    "Tool execution error: " ++ ("Tool not found: " ++ name) =
      "Tool execution error: " ++ ("Tool not found" ++ (": " ++ name)) ∧
    ((-32603 : Int) ≠ -32601 ∧ (-32603 : Int) ≠ -32602) := by
  refine ⟨?_, ?_, by decide, by decide⟩
  · have hparse : parseToolCallParams (.obj [("name", .str name), ("arguments", args)]) =
        some (name, args) := rfl
    simp [handle_tools_call, hs, hparse, execute_tool, hnf]
  · have hsplit : "Tool not found" ++ (": " ++ name) = "Tool not found: " ++ name := by
      rw [← String.append_assoc]
      rfl
    rw [hsplit]

/-- Witness for C10 at a concrete unknown tool name. -/
theorem c10_tool_not_found_witness :
    serverReady.state = ServerState.Ready ∧
    List.lookup "nope" serverReady.tools = none ∧
    handle_tools_call serverReady (.num 5)
        (some (.obj [("name", .str "nope"), ("arguments", .obj [])])) =
      .mkError (.num 5) (-32603)
        ("Tool execution error: " ++ ("Tool not found: " ++ "nope")) none :=
  ⟨rfl, rfl, (c10_tool_not_found serverReady (.num 5) "nope" (.obj []) rfl rfl).1⟩

/-- Set insert: the inserted element is a member. -/
theorem mem_insertSet_self (x : String) (s : List String) : x ∈ insertSet x s := by
  unfold insertSet
  by_cases h : s.contains x
  · rw [if_pos h]
    simpa using h
  · rw [if_neg h]
    exact List.mem_cons_self _ _

/-- subscribe succeeds for a registered uri and records the client id under
that uri. -/
theorem subscribe_ok (resources : List (String × Resource × ResourceContentProvider))
    (subs : List (String × List String)) (c uri : String)
    (rp : Resource × ResourceContentProvider)
    (hres : resources.lookup uri = some rp) :
    ∃ set0, subscribe resources subs c uri = .ok (insertKey uri (insertSet c set0) subs) := by
  unfold subscribe
  rw [hres]
  simp only [Option.isNone_some, Bool.false_eq_true, ite_false]
  cases h : subs.lookup uri with
  | some set0 => exact ⟨set0, rfl⟩
  | none => exact ⟨[], rfl⟩

/-- The subscribe handler replies success and stores the request id string
as the subscriber identity. -/
theorem handle_subscribe_ok (s : Server) (id : Json) (uri : String)
    (rp : Resource × ResourceContentProvider)
    (hs : s.state = .Ready) (hres : s.resources.lookup uri = some rp) :
    ∃ set0,
      handle_resources_subscribe s id (some (.obj [("uri", .str uri)])) =
        (.mkResponse id (.obj [("success", .bool true)]),
          { s with subscriptions :=
              insertKey uri (insertSet id.render set0) s.subscriptions }) := by
  obtain ⟨set0, hsub⟩ := subscribe_ok s.resources s.subscriptions id.render uri rp hres
  refine ⟨set0, ?_⟩
  have hparse : parseUriParams (.obj [("uri", .str uri)]) = some uri := rfl
  simp [handle_resources_subscribe, hs, hparse, hsub]

/-- unsubscribe only removes its own client id: a different id already in
the set for the uri survives, and the reply is a success. -/
theorem unsubscribe_keeps_other (subs : List (String × List String))
    (c1 c2 uri : String) (set1 : List String)
    (hlook : subs.lookup uri = some set1) (hmem : c1 ∈ set1) (hne : c1 ≠ c2) :
    ∃ subs', unsubscribe subs c2 uri = .ok subs' ∧
      ∃ set2, subs'.lookup uri = some set2 ∧ c1 ∈ set2 := by
  unfold unsubscribe
  rw [hlook]
  have hmem' : c1 ∈ set1.erase c2 := (List.mem_erase_of_ne hne).mpr hmem
  have hnonempty : (set1.erase c2).isEmpty = false := by
    cases herase : set1.erase c2 with
    | nil => rw [herase] at hmem'; exact absurd hmem' (List.not_mem_nil c1)
    | cons x xs => rfl
  simp only [hnonempty, Bool.false_eq_true, ite_false]
  exact ⟨_, rfl, set1.erase c2, lookup_insertKey_self _ _ _, hmem'⟩

/-- The unsubscribe handler replies success while leaving a subscription
made under a different identity in place. -/
theorem handle_unsubscribe_keeps (s' : Server) (unsubId : Json) (uri c1 : String)
    (set1 : List String)
    (hst : s'.state = .Ready)
    (hlook : s'.subscriptions.lookup uri = some set1)
    (hmem : c1 ∈ set1) (hne : c1 ≠ unsubId.render) :
    (handle_resources_unsubscribe s' unsubId (some (.obj [("uri", .str uri)]))).1 =
      .mkResponse unsubId (.obj [("success", .bool true)]) ∧
    ∃ set2, ((handle_resources_unsubscribe s' unsubId
        (some (.obj [("uri", .str uri)]))).2.subscriptions).lookup uri = some set2 ∧
      c1 ∈ set2 := by
  obtain ⟨subs', hunsub, set2, hlook2, hmem2⟩ :=
    unsubscribe_keeps_other s'.subscriptions c1 unsubId.render uri set1 hlook hmem hne
  have hparse : parseUriParams (.obj [("uri", .str uri)]) = some uri := rfl
  constructor
  · simp [handle_resources_unsubscribe, hst, hparse, hunsub]
  · refine ⟨set2, ?_, hmem2⟩
    have hsrv : (handle_resources_unsubscribe s' unsubId (some (.obj [("uri", .str uri)]))).2 =
        { s' with subscriptions := subs' } := by
      simp [handle_resources_unsubscribe, hst, hparse, hunsub]
    rw [hsrv]
    exact hlook2

/-- C9: a subscription recorded under the subscribe request id survives a
later resources/unsubscribe for the same uri, because the unsubscribe
handler removes only its own (different) request id — yet the unsubscribe
still replies success true. -/
theorem c9_unsubscribe_leaves_entry (s : Server) (subId unsubId : Json) (uri : String)
    (rp : Resource × ResourceContentProvider)
    (hs : s.state = .Ready)
    (hres : s.resources.lookup uri = some rp)
    (hids : subId.render ≠ unsubId.render) :
    (handle_resources_subscribe s subId (some (.obj [("uri", .str uri)]))).1 =
      .mkResponse subId (.obj [("success", .bool true)]) ∧
    (handle_resources_unsubscribe
        (handle_resources_subscribe s subId (some (.obj [("uri", .str uri)]))).2
        unsubId (some (.obj [("uri", .str uri)]))).1 =
      .mkResponse unsubId (.obj [("success", .bool true)]) ∧
    ∃ subscribers,
      ((handle_resources_unsubscribe
          (handle_resources_subscribe s subId (some (.obj [("uri", .str uri)]))).2
          unsubId (some (.obj [("uri", .str uri)]))).2.subscriptions).lookup uri =
        some subscribers ∧ subId.render ∈ subscribers := by
  obtain ⟨set0, hsub⟩ := handle_subscribe_ok s subId uri rp hs hres
  rw [hsub]
  obtain ⟨h1, set2, h2, h3⟩ := handle_unsubscribe_keeps
    { s with subscriptions := insertKey uri (insertSet subId.render set0) s.subscriptions }
    unsubId uri subId.render (insertSet subId.render set0) hs
    (lookup_insertKey_self _ _ _) (mem_insertSet_self _ _) hids
  exact ⟨rfl, h1, set2, h2, h3⟩

/-- Witness for C9 with request ids 1 and 2. -/
theorem c9_unsubscribe_leaves_entry_witness :
    serverWithResource.state = ServerState.Ready ∧
    serverWithResource.resources.lookup "a" = some (resource_a, sampleResourceProvider) ∧
    (Json.num 1).render ≠ (Json.num 2).render ∧
    (handle_resources_subscribe serverWithResource (.num 1)
        (some (.obj [("uri", .str "a")]))).1 =
      .mkResponse (.num 1) (.obj [("success", .bool true)]) := by
  refine ⟨rfl, rfl, by decide, ?_⟩
  exact (c9_unsubscribe_leaves_entry serverWithResource (.num 1) (.num 2) "a"
    (resource_a, sampleResourceProvider) rfl rfl (by decide)).1

/-- C7: decoding the JSON encoding of any wire-valid JsonRpcMessage (a
Response carrying exactly one of result/error, optional payloads not the
literal null) returns the original message. -/
theorem c7_decode_encode_roundtrip (m : JsonRpcMessage) (h : validMessage m) :
    decode (encode m) = some m := by
  cases m with
  | request j id mth p =>
    cases p with
    | none => rfl
    | some v =>
      simp only [validMessage, ne_eq] at h
      cases v with
      | null => exact absurd rfl h
      | bool b => rfl
      | num n => rfl
      | str s => rfl
      | arr xs => rfl
      | obj o => rfl
  | notification j mth p =>
    cases p with
    | none => rfl
    | some v =>
      simp only [validMessage, ne_eq] at h
      cases v with
      | null => exact absurd rfl h
      | bool b => rfl
      | num n => rfl
      | str s => rfl
      | arr xs => rfl
      | obj o => rfl
  | response j id r e =>
    obtain ⟨hxor, hr, he⟩ := h
    cases r with
    | none =>
      cases e with
      | none => simp at hxor
      | some err =>
        obtain ⟨c, msg, d⟩ := err
        cases d with
        | none => rfl
        | some dv =>
          have hd : dv ≠ Json.null := by
            intro hh
            exact (he ⟨c, msg, some dv⟩ rfl) (by rw [hh])
          cases dv with
          | null => exact absurd rfl hd
          | bool b => rfl
          | num n => rfl
          | str s => rfl
          | arr xs => rfl
          | obj o => rfl
    | some rv =>
      have hee : e = none := hxor.mp (by simp)
      subst hee
      have hrv : rv ≠ Json.null := by
        intro hh
        exact hr (by rw [hh])
      cases rv with
      | null => exact absurd rfl hrv
      | bool b => rfl
      | num n => rfl
      | str s => rfl
      | arr xs => rfl
      | obj o => rfl

/-- Witness for C7 on a concrete response message. -/
theorem c7_decode_encode_roundtrip_witness :
    validMessage (.mkResponse (.num 7) (.str "ok")) ∧
    decode (encode (.mkResponse (.num 7) (.str "ok"))) =
      some (.mkResponse (.num 7) (.str "ok")) := by
  have hv : validMessage (.mkResponse (.num 7) (.str "ok")) := by
    refine ⟨by simp, by simp, ?_⟩
    intro e he
    simp [JsonRpcMessage.mkResponse] at he
  exact ⟨hv, c7_decode_encode_roundtrip _ hv⟩

end Mcp
